import Mathlib

/-!
Pomerium: configuration field check and authenticate bootstrap

A shallow embedding of

* `config/options_check.go` : `CheckUnknownConfigFields` and its two static tables,
* `authenticate/state.go`   : `newAuthenticateStateFromConfig`.

Go strings are embedded as Lean `String`s (sequences of Unicode scalar values).  The
only characters the regular expression of `options_check.go` inspects are ASCII, so the
byte-level and the character-level reading of the pattern agree.
-/

namespace config

/-! ## `config/options_check.go` -/

/-- Go `type KeyAction string`. -/
abbrev KeyAction := String

/-- Go `type FieldCheckMsg string`. -/
abbrev FieldCheckMsg := String

/-- Go `KeyActionWarn = KeyAction("warn")`. -/
def KeyActionWarn : KeyAction := "warn"

/-- Go `KeyActionError = KeyAction("error")`. -/
def KeyActionError : KeyAction := "error"

/-- Go `UnknownFieldAction = KeyActionWarn`. -/
def UnknownFieldAction : KeyAction := KeyActionWarn

/-- Go `FieldCheckMsgRemoved = FieldCheckMsg("config option was removed")`. -/
def FieldCheckMsgRemoved : FieldCheckMsg := "config option was removed"

/-- Go `FieldCheckMsgUnknown = FieldCheckMsg("unknown config option")`. -/
def FieldCheckMsgUnknown : FieldCheckMsg := "unknown config option"

/-! ### The regular expression `\[\d+\]`

`reKeyPath = regexp.MustCompile("\[\d+\]")`.  The pattern is a literal `[`, one or more
ASCII decimal digits, and a literal `]`.  At a given start position it has at most one
match (the digit run is maximal because a digit is not `]`). -/

/-- Number of characters matched by the tail `\d*\]` of the pattern at the head of the
input, if it matches there. -/
def reKeyPathTailLen : List Char → Option Nat
  | [] => none
  | c :: cs =>
    if c = ']' then some 1
    else if c.isDigit then (reKeyPathTailLen cs).map (· + 1)
    else none

/-- Number of characters matched by `\[\d+\]` at the head of the input, if the pattern
matches there. -/
def reKeyPathMatchLen : List Char → Option Nat
  | [] => none
  | c :: cs =>
    if c = '[' then
      match cs with
      | [] => none
      | d :: ds => if d.isDigit then (reKeyPathTailLen ds).map (· + 2) else none
    else none

/-- The scan of `reKeyPath.ReplaceAllString(src, "")`: matches are searched left to
right and do not overlap; the characters of a match are dropped (the replacement is
empty) and every other character is copied.  The first argument counts the characters
of the current match that are still to be dropped. -/
def reKeyPathReplaceAllAux : Nat → List Char → List Char
  | _, [] => []
  | n + 1, _ :: cs => reKeyPathReplaceAllAux n cs
  | 0, c :: cs =>
    match reKeyPathMatchLen (c :: cs) with
    | some len => reKeyPathReplaceAllAux (len - 1) cs
    | none => c :: reKeyPathReplaceAllAux 0 cs

/-- Go `reKeyPath.ReplaceAllString(key, "")`. -/
def reKeyPathReplaceAllString (key : String) : String :=
  String.mk (reKeyPathReplaceAllAux 0 key.data)

/-- Go `removedConfigFields`: options that were removed from the config, with the
documentation URL of each (a Go map literal with pairwise distinct keys). -/
def removedConfigFields : List (String × String) :=
  [ ("idp_service_account",
      "https://docs.pomerium.com/docs/overview/upgrading#idp-directory-sync"),
    ("idp_refresh_directory_timeout",
      "https://docs.pomerium.com/docs/overview/upgrading#idp-directory-sync"),
    ("idp_refresh_directory_interval",
      "https://docs.pomerium.com/docs/overview/upgrading#idp-directory-sync"),
    ("idp_qps",
      "https://docs.pomerium.com/docs/overview/upgrading#idp-directory-sync"),
    ("routes.allowed_groups",
      "https://docs.pomerium.com/docs/overview/upgrading#idp-groups-policy"),
    ("routes.set_authorization_header",
      "https://www.pomerium.com/docs/deploy/core/upgrading#set-authorization-header") ]

/-- Go `ignoreConfigFields`: a Go `map[string]struct{}` used as a set. -/
def ignoreConfigFields : List String :=
  [ "routes.outlier_detection", "routes.health_checks" ]

/-- Go `type FieldMsg struct`; the two embedded fields carry the name of their type. -/
structure FieldMsg where
  Key : String
  DocsURL : String := ""
  FieldCheckMsg : config.FieldCheckMsg
  KeyAction : config.KeyAction
  deriving DecidableEq, Repr

/-- One iteration of the `for _, key := range fields` loop of
`CheckUnknownConfigFields`, acting on the accumulator `out`. -/
def checkUnknownConfigFieldsStep (out : List FieldMsg) (key : String) : List FieldMsg :=
  let path := reKeyPathReplaceAllString key
  match removedConfigFields.lookup path with
  | some docsURL =>
    out ++ [{ Key := path, DocsURL := docsURL, KeyAction := KeyActionError,
              FieldCheckMsg := FieldCheckMsgRemoved }]
  | none =>
    if ignoreConfigFields.contains path then out
    else out ++ [{ Key := path, KeyAction := KeyActionWarn,
                   FieldCheckMsg := FieldCheckMsgUnknown }]

/-- Go `func CheckUnknownConfigFields(fields []string) []FieldMsg`: the loop starts from
the empty slice `out` and returns it after the last field. -/
def CheckUnknownConfigFields (fields : List String) : List FieldMsg :=
  fields.foldl checkUnknownConfigFieldsStep []

/-! ### Specification-side definitions for the field check -/

/-- The classification of one normalized path `p`, in the words of the specification:
removed fields give one `error/removed` message with the URL of the table, ignored
fields give nothing, every other field gives one `warn/unknown` message. -/
def classifyPath (p : String) : List FieldMsg :=
  match removedConfigFields.lookup p with
  | some url =>
    [{ Key := p, DocsURL := url, KeyAction := "error",
       FieldCheckMsg := "config option was removed" }]
  | none =>
    if p ∈ ignoreConfigFields then []
    else [{ Key := p, DocsURL := "", KeyAction := "warn",
            FieldCheckMsg := "unknown config option" }]

/-- The input starts with a numeric index segment: a `[`, one or more decimal digits,
and a `]`. -/
def StartsWithIndexSegment (s : List Char) : Prop :=
  ∃ ds rest, ds ≠ [] ∧ (∀ d ∈ ds, d.isDigit = true) ∧ s = '[' :: (ds ++ ']' :: rest)

/-- The normalization of a field path in the words of the specification, read left to
right: `IndexSegmentsStripped s out` holds when `out` is `s` with its numeric index
segments stripped.  A numeric index segment at the head is dropped; a character that
does not start one is kept. -/
inductive IndexSegmentsStripped : List Char → List Char → Prop where
  | done : IndexSegmentsStripped [] []
  | strip (ds rest out : List Char) (hne : ds ≠ []) (hd : ∀ d ∈ ds, d.isDigit = true)
      (h : IndexSegmentsStripped rest out) :
      IndexSegmentsStripped ('[' :: (ds ++ ']' :: rest)) out
  | keep (c : Char) (cs out : List Char) (hc : ¬ StartsWithIndexSegment (c :: cs))
      (h : IndexSegmentsStripped cs out) :
      IndexSegmentsStripped (c :: cs) (c :: out)

/-- A substring of the form `[`, one or more decimal digits, `]` occurs in `s`. -/
def ContainsIndexSegment (s : List Char) : Prop :=
  ∃ pre ds suf, ds ≠ [] ∧ (∀ d ∈ ds, d.isDigit = true) ∧ s = pre ++ '[' :: (ds ++ ']' :: suf)

/-- Every `[` of `s` opens an index segment: it is followed by one or more decimal
digits and a `]`. -/
def EveryBracketIndexed (s : List Char) : Prop :=
  ∀ pre suf, s = pre ++ '[' :: suf →
    ∃ ds rest, ds ≠ [] ∧ (∀ d ∈ ds, d.isDigit = true) ∧ suf = ds ++ ']' :: rest

/-- A check of `EveryBracketIndexed` by one pass over the input. -/
def everyBracketIndexedCheck : List Char → Bool
  | [] => true
  | c :: cs =>
    (c != '[' || (reKeyPathMatchLen (c :: cs)).isSome) && everyBracketIndexedCheck cs

end config

/-! ## `authenticate/state.go`

`newAuthenticateStateFromConfig` calls into packages whose source is not part of this
development (`config.Options` getters, `urlutil`, `cryptutil`, `jws`, `cookie`,
`encoding/base64`, `pkg/grpc`, `databroker`, `webauthn`, `webauthnutil`).  Their result
types are the fields of `Sig` and the functions themselves are the fields of
`Externals`; every theorem about the bootstrap holds for all of them.

Conventions of the embedding:

* a Go result `(T, error)` of a collaborator is an `Except GoError T`;
* the result `(*authenticateState, error)` of the bootstrap itself is kept as a pair of
  `Option`s (`nil` is `none`), so that "a state and an error" is representable;
* `*url.URL` values are addresses into a store of `url.URL` values, so that the
  assignment `state.redirectURL.Path = ...` is a write through a pointer;
* the getters of `config.Options` are functions of the options: the configuration and
  whatever it refers to do not change while one bootstrap runs;
* the package-level `outboundGRPCConnection` is threaded through `World`, together with
  the record of the arguments its `Get` method has been called with; `Get` is the only
  collaborator that reads or changes it.
-/

/-- A Go `error` value: either a plain error with a message, or the result of
`fmt.Errorf(format, err)` whose format ends in the wrapping verb. -/
inductive GoError where
  | new (msg : String)
  | errorf (format : String) (err : GoError)
  deriving DecidableEq, Repr

/-- Go `[]byte`. -/
abbrev Bytes := List UInt8

namespace url

/-- Go `url.Userinfo`. -/
structure Userinfo where
  username : String
  password : String
  passwordSet : Bool
  deriving DecidableEq, Repr

/-- Go `url.URL` (Go 1.20 field list). -/
structure URL where
  Scheme : String := ""
  Opaque : String := ""
  User : Option Userinfo := none
  Host : String := ""
  Path : String := ""
  RawPath : String := ""
  OmitHost : Bool := false
  ForceQuery : Bool := false
  RawQuery : String := ""
  Fragment : String := ""
  RawFragment : String := ""
  deriving DecidableEq, Repr

end url

/-- A `*url.URL`: the address of a `url.URL` value. -/
abbrev URLPtr := Nat

/-- The memory holding `url.URL` values, by address. -/
abbrev URLStore := URLPtr → url.URL

namespace cookie

/-- Go `cookie.Options`. -/
structure Options where
  Name : String
  Domain : String
  Secure : Bool
  HTTPOnly : Bool
  Expire : Int
  deriving DecidableEq, Repr

end cookie

namespace grpc

/-- Go `grpc.OutboundOptions`, with the four fields the bootstrap sets. -/
structure OutboundOptions where
  OutboundPort : String
  InstallationID : String
  ServiceName : String
  SignedJWTKey : Bytes
  deriving DecidableEq, Repr

end grpc

namespace jose

/-- Go `jose.JSONWebKeySet`. -/
structure JSONWebKeySet (JSONWebKey : Type) where
  Keys : List JSONWebKey := []
  deriving DecidableEq, Repr

end jose

namespace config

/-- Go `config.Options`: the fields that `newAuthenticateStateFromConfig` reads directly,
and `Rest` for all the other fields (read only by the getters). -/
structure Options (Rest : Type) where
  AuthenticateCallbackPath : String
  CookieName : String
  CookieDomain : String
  CookieSecure : Bool
  CookieHTTPOnly : Bool
  CookieExpire : Int
  SigningKey : String
  InstallationID : String
  Services : String
  Rest : Rest

/-- Go `config.Config`. -/
structure Config (Rest : Type) where
  Options : config.Options Rest
  OutboundPort : String

end config

namespace authenticate

/-- The types of the values produced by the collaborators of the bootstrap. -/
structure Sig where
  /-- The fields of `config.Options` that the bootstrap does not read directly. -/
  OptionsRest : Type
  /-- Go `cipher.AEAD`. -/
  AEAD : Type
  /-- Go `encoding.MarshalUnmarshaler`. -/
  MarshalUnmarshaler : Type
  /-- Go `*cookie.Store`. -/
  CookieStore : Type
  /-- Go `jose.JSONWebKey`. -/
  JSONWebKey : Type
  /-- Go `*grpc.ClientConn`. -/
  ClientConn : Type
  /-- Go `databroker.DataBrokerServiceClient`. -/
  DataBrokerServiceClient : Type
  /-- The credential storage of `webauthnutil.NewCredentialStorage`. -/
  CredentialStorage : Type
  /-- Go `*webauthn.RelyingParty`. -/
  RelyingParty : Type
  /-- The contents of a `grpc.CachedOutboundGRPClientConn`. -/
  CachedOutboundGRPClientConn : Type

/-- The functions called by `newAuthenticateStateFromConfig`. -/
structure Externals (T : Sig) where
  /-- Go `ValidateOptions(o)`: `none` is a `nil` error. -/
  ValidateOptions : config.Options T.OptionsRest → Option GoError
  /-- Go `(*Options).GetAuthenticateURL()`: the address of the URL, and the store holding it. -/
  GetAuthenticateURL :
    config.Options T.OptionsRest → URLStore → Except GoError (URLPtr × URLStore)
  /-- Go `urlutil.DeepCopy(u)`. -/
  DeepCopy : URLPtr → URLStore → Except GoError (URLPtr × URLStore)
  /-- Go `(*Options).GetSharedKey()`. -/
  GetSharedKey : config.Options T.OptionsRest → Except GoError Bytes
  /-- Go `cryptutil.NewAEADCipher(secret)`. -/
  NewAEADCipher : Bytes → Except GoError T.AEAD
  /-- Go `jws.NewHS256Signer(key)`. -/
  NewHS256Signer : Bytes → Except GoError T.MarshalUnmarshaler
  /-- Go `(*Options).GetCookieSecret()`. -/
  GetCookieSecret : config.Options T.OptionsRest → Except GoError Bytes
  /-- Go `cookie.NewStore(getOptions, encoder)`. -/
  NewStore : (Unit → cookie.Options) → T.MarshalUnmarshaler → Except GoError T.CookieStore
  /-- Go `(*Options).GetSigningKey()`. -/
  GetSigningKey : config.Options T.OptionsRest → Except GoError String
  /-- Go `base64.StdEncoding.DecodeString(s)`. -/
  DecodeString : String → Except GoError Bytes
  /-- Go `cryptutil.PublicJWKFromBytes(data)`. -/
  PublicJWKFromBytes : Bytes → Except GoError T.JSONWebKey
  /-- Go `(*CachedOutboundGRPClientConn).Get(ctx, opts)`: the result and the new contents
  of the cache. -/
  Get : T.CachedOutboundGRPClientConn → grpc.OutboundOptions →
    Except GoError T.ClientConn × T.CachedOutboundGRPClientConn
  /-- Go `databroker.NewDataBrokerServiceClient(conn)`. -/
  NewDataBrokerServiceClient : T.ClientConn → T.DataBrokerServiceClient
  /-- Go `webauthnutil.NewCredentialStorage(client)`. -/
  NewCredentialStorage : T.DataBrokerServiceClient → T.CredentialStorage
  /-- Go `(*url.URL).String()`. -/
  URLString : url.URL → String
  /-- Go `webauthn.NewRelyingParty(origin, storage)`. -/
  NewRelyingParty : String → T.CredentialStorage → T.RelyingParty

/-- Go `type authenticateState struct`.  Pointer and interface fields are `none` when
`nil`; the default values are those of the literal `&authenticateState{}`. -/
structure authenticateState (T : Sig) where
  redirectURL : Option URLPtr := none
  sharedEncoder : Option T.MarshalUnmarshaler := none
  sharedKey : Bytes := []
  sharedCipher : Option T.AEAD := none
  cookieSecret : Bytes := []
  cookieCipher : Option T.AEAD := none
  sessionStore : Option T.CookieStore := none
  sessionLoader : Option T.CookieStore := none
  jwk : Option (jose.JSONWebKeySet T.JSONWebKey) := none
  dataBrokerClient : Option T.DataBrokerServiceClient := none
  webauthnRelyingParty : Option T.RelyingParty := none

/-- What a bootstrap can read and change outside its own locals. -/
structure World (T : Sig) where
  /-- The memory of `url.URL` values. -/
  urls : URLStore
  /-- Go `var outboundGRPCConnection = new(grpc.CachedOutboundGRPClientConn)`. -/
  outboundGRPCConnection : T.CachedOutboundGRPClientConn
  /-- The arguments of the calls of `outboundGRPCConnection.Get` so far, oldest first. -/
  getCalls : List grpc.OutboundOptions

/-- Go `func newAuthenticateState() *authenticateState`. -/
def newAuthenticateState (T : Sig) : authenticateState T :=
  { jwk := some {} }

/-- Go `func newAuthenticateStateFromConfig(cfg *config.Config) (*authenticateState, error)`.
Every `return nil, err` of the source is a result `((none, some err), w)` and the final
`return state, nil` is `((some state, none), w)`, where `w` is the world at that point. -/
def newAuthenticateStateFromConfig {T : Sig} (X : Externals T)
    (cfg : config.Config T.OptionsRest) (w : World T) :
    (Option (authenticateState T) × Option GoError) × World T :=
  match X.ValidateOptions cfg.Options with
  | some err => ((none, some err), w)
  | none =>
  let state : authenticateState T := {}
  match X.GetAuthenticateURL cfg.Options w.urls with
  | .error err => ((none, some err), w)
  | .ok (authenticateURL, urls) =>
  let w := { w with urls := urls }
  match X.DeepCopy authenticateURL w.urls with
  | .error err => ((none, some err), w)
  | .ok (redirectURL, urls) =>
  let state := { state with redirectURL := some redirectURL }
  -- `state.redirectURL.Path = cfg.Options.AuthenticateCallbackPath`
  let w := { w with
    urls := Function.update urls redirectURL
      { urls redirectURL with Path := cfg.Options.AuthenticateCallbackPath } }
  match X.GetSharedKey cfg.Options with
  | .error err => ((none, some err), w)
  | .ok sharedKey =>
  let state := { state with sharedKey := sharedKey }
  match X.NewAEADCipher state.sharedKey with
  | .error err => ((none, some err), w)
  | .ok sharedCipher =>
  let state := { state with sharedCipher := some sharedCipher }
  match X.NewHS256Signer state.sharedKey with
  | .error err => ((none, some err), w)
  | .ok sharedEncoder =>
  let state := { state with sharedEncoder := some sharedEncoder }
  match X.GetCookieSecret cfg.Options with
  | .error err => ((none, some err), w)
  | .ok cookieSecret =>
  let state := { state with cookieSecret := cookieSecret }
  match X.NewAEADCipher state.cookieSecret with
  | .error err => ((none, some err), w)
  | .ok cookieCipher =>
  let state := { state with cookieCipher := some cookieCipher }
  match X.NewStore (fun _ =>
      { Name := cfg.Options.CookieName
        Domain := cfg.Options.CookieDomain
        Secure := cfg.Options.CookieSecure
        HTTPOnly := cfg.Options.CookieHTTPOnly
        Expire := cfg.Options.CookieExpire }) sharedEncoder with
  | .error err => ((none, some err), w)
  | .ok cookieStore =>
  let state := { state with sessionStore := some cookieStore }
  let state := { state with sessionLoader := some cookieStore }
  let state := { state with jwk := some {} }
  match X.GetSigningKey cfg.Options with
  | .error err => ((none, some err), w)
  | .ok signingKey =>
  -- the block `if signingKey != "" { ... }`: an error leaves the function, otherwise
  -- the block yields the key set it has extended
  match (if signingKey ≠ "" then
          match X.DecodeString cfg.Options.SigningKey with
          | .error err =>
            .error (GoError.errorf "authenticate: failed to decode signing key: %w" err)
          | .ok decodedCert =>
            match X.PublicJWKFromBytes decodedCert with
            | .error err =>
              .error (GoError.errorf "authenticate: failed to convert jwks: %w" err)
            | .ok jwk =>
              .ok (state.jwk.map fun set => { set with Keys := set.Keys ++ [jwk] })
        else .ok state.jwk : Except GoError (Option (jose.JSONWebKeySet T.JSONWebKey))) with
  | .error err => ((none, some err), w)
  | .ok keySet =>
  let state := { state with jwk := keySet }
  match X.GetSharedKey cfg.Options with
  | .error err => ((none, some err), w)
  | .ok sharedKey =>
  let opts : grpc.OutboundOptions :=
    { OutboundPort := cfg.OutboundPort
      InstallationID := cfg.Options.InstallationID
      ServiceName := cfg.Options.Services
      SignedJWTKey := sharedKey }
  let got := X.Get w.outboundGRPCConnection opts
  let w := { w with outboundGRPCConnection := got.2, getCalls := w.getCalls ++ [opts] }
  match got.1 with
  | .error err => ((none, some err), w)
  | .ok dataBrokerConn =>
  let state := { state with
    dataBrokerClient := some (X.NewDataBrokerServiceClient dataBrokerConn) }
  let state := { state with
    webauthnRelyingParty := some (X.NewRelyingParty
      (X.URLString (w.urls authenticateURL))
      (X.NewCredentialStorage (X.NewDataBrokerServiceClient dataBrokerConn))) }
  ((some state, none), w)

end authenticate

namespace authenticate

/-! ### Specification-side definitions for the bootstrap

The specification describes the bootstrap as a strict pipeline: a sequence of fallible
steps, each consuming the results of the earlier ones, that stops at the first failure.
The definitions below are that pipeline, written as a chain of `Except` binds in the
order in which the steps are listed.  The steps and their order are those of the
specification; the arguments handed to each step are the ones the source hands to it
(the shared encoder for the cookie store, the `SigningKey` option for the decode). -/

/-- The cookie options of a configuration. -/
def cookieOptionsOf {Rest : Type} (cfg : config.Config Rest) : cookie.Options :=
  { Name := cfg.Options.CookieName
    Domain := cfg.Options.CookieDomain
    Secure := cfg.Options.CookieSecure
    HTTPOnly := cfg.Options.CookieHTTPOnly
    Expire := cfg.Options.CookieExpire }

/-- The connection fingerprint of a configuration and a shared key: target port,
installation identity, service name, signed-key material. -/
def fingerprintOf {Rest : Type} (cfg : config.Config Rest) (sharedKey : Bytes) :
    grpc.OutboundOptions :=
  { OutboundPort := cfg.OutboundPort
    InstallationID := cfg.Options.InstallationID
    ServiceName := cfg.Options.Services
    SignedJWTKey := sharedKey }

/-- Step "validate configuration". -/
def validateStep {T : Sig} (X : Externals T) (cfg : config.Config T.OptionsRest) :
    Except GoError Unit :=
  match X.ValidateOptions cfg.Options with
  | some err => .error err
  | none => .ok ()

/-- Step "populate signing-key registry if configured": `GetSigningKey`, then, when the
key is not empty, the decode and the convert, each failing with its wrapped error. -/
def signingKeyStep {T : Sig} (X : Externals T) (cfg : config.Config T.OptionsRest) :
    Except GoError (List T.JSONWebKey) := do
  let signingKey ← X.GetSigningKey cfg.Options
  if signingKey = "" then
    pure []
  else do
    let decodedCert ← (X.DecodeString cfg.Options.SigningKey).mapError
      (GoError.errorf "authenticate: failed to decode signing key: %w")
    let jwk ← (X.PublicJWKFromBytes decodedCert).mapError
      (GoError.errorf "authenticate: failed to convert jwks: %w")
    pure [jwk]

/-- What the steps before connection acquisition hand over to it. -/
structure PreConnection (T : Sig) where
  state : authenticateState T
  authenticateURL : URLPtr
  urls : URLStore
  fingerprint : grpc.OutboundOptions

/-- The steps that precede connection acquisition, in order: validation, redirect-URL
derivation, shared key / cipher / encoder, cookie secret / cipher, session store,
signing-key population, fingerprint derivation. -/
def preConnectionSteps {T : Sig} (X : Externals T) (cfg : config.Config T.OptionsRest)
    (urls : URLStore) : Except GoError (PreConnection T) := do
  validateStep X cfg
  let (authenticateURL, urls1) ← X.GetAuthenticateURL cfg.Options urls
  let (redirectURL, urls2) ← X.DeepCopy authenticateURL urls1
  let sharedKey ← X.GetSharedKey cfg.Options
  let sharedCipher ← X.NewAEADCipher sharedKey
  let sharedEncoder ← X.NewHS256Signer sharedKey
  let cookieSecret ← X.GetCookieSecret cfg.Options
  let cookieCipher ← X.NewAEADCipher cookieSecret
  let cookieStore ← X.NewStore (fun _ => cookieOptionsOf cfg) sharedEncoder
  let keys ← signingKeyStep X cfg
  let sharedKey2 ← X.GetSharedKey cfg.Options
  pure
    { state :=
        { redirectURL := some redirectURL
          sharedEncoder := some sharedEncoder
          sharedKey := sharedKey
          sharedCipher := some sharedCipher
          cookieSecret := cookieSecret
          cookieCipher := some cookieCipher
          sessionStore := some cookieStore
          sessionLoader := some cookieStore
          jwk := some { Keys := keys } }
      authenticateURL := authenticateURL
      urls := Function.update urls2 redirectURL
        { urls2 redirectURL with Path := cfg.Options.AuthenticateCallbackPath }
      fingerprint := fingerprintOf cfg sharedKey2 }

/-- The whole pipeline: the steps before connection acquisition, the acquisition of the
cached connection, and the binding of the relying party. -/
def bootstrapPipeline {T : Sig} (X : Externals T) (cfg : config.Config T.OptionsRest)
    (w : World T) : Except GoError (authenticateState T) := do
  let pre ← preConnectionSteps X cfg w.urls
  let dataBrokerConn ← (X.Get w.outboundGRPCConnection pre.fingerprint).1
  let client := X.NewDataBrokerServiceClient dataBrokerConn
  pure { pre.state with
    dataBrokerClient := some client
    webauthnRelyingParty := some (X.NewRelyingParty
      (X.URLString (pre.urls pre.authenticateURL)) (X.NewCredentialStorage client)) }

/-- The Go result pair that corresponds to a pipeline result. -/
def resultPair {α : Type} : Except GoError α → Option α × Option GoError
  | .ok a => (some a, none)
  | .error err => (none, some err)

/-- The contract of `urlutil.DeepCopy`: on success the result is a pointer different
from the argument, it points to a value equal to the one the argument points to, and
the value the argument points to is left as it was. -/
def DeepCopyContract {T : Sig} (X : Externals T) : Prop :=
  ∀ (p : URLPtr) (urls : URLStore) (q : URLPtr) (urls2 : URLStore),
    X.DeepCopy p urls = .ok (q, urls2) → q ≠ p ∧ urls2 q = urls p ∧ urls2 p = urls p

/-- Every step of the bootstrap succeeds, each on the results of the steps before it:
`ValidateOptions`, `GetAuthenticateURL`, the deep copy, `GetSharedKey`, `NewAEADCipher`
on the shared key, `NewHS256Signer`, `GetCookieSecret`, `NewAEADCipher` on the cookie
secret, `cookie.NewStore`, `GetSigningKey` with the decode and the convert when the key
is configured, the second `GetSharedKey`, and the `Get` of the connection cache. -/
def AllStepsSucceed {T : Sig} (X : Externals T) (cfg : config.Config T.OptionsRest)
    (w : World T) : Prop :=
  X.ValidateOptions cfg.Options = none ∧
  ∃ authenticateURL urls1, X.GetAuthenticateURL cfg.Options w.urls = .ok (authenticateURL, urls1) ∧
  (∃ copied, X.DeepCopy authenticateURL urls1 = .ok copied) ∧
  ∃ sharedKey, X.GetSharedKey cfg.Options = .ok sharedKey ∧
  (∃ sharedCipher, X.NewAEADCipher sharedKey = .ok sharedCipher) ∧
  ∃ sharedEncoder, X.NewHS256Signer sharedKey = .ok sharedEncoder ∧
  ∃ cookieSecret, X.GetCookieSecret cfg.Options = .ok cookieSecret ∧
  (∃ cookieCipher, X.NewAEADCipher cookieSecret = .ok cookieCipher) ∧
  (∃ cookieStore, X.NewStore (fun _ => cookieOptionsOf cfg) sharedEncoder = .ok cookieStore) ∧
  (∃ signingKey, X.GetSigningKey cfg.Options = .ok signingKey ∧
    (signingKey ≠ "" →
      ∃ decodedCert, X.DecodeString cfg.Options.SigningKey = .ok decodedCert ∧
        ∃ jwk, X.PublicJWKFromBytes decodedCert = .ok jwk)) ∧
  ∃ sharedKey2, X.GetSharedKey cfg.Options = .ok sharedKey2 ∧
  ∃ dataBrokerConn,
    (X.Get w.outboundGRPCConnection (fingerprintOf cfg sharedKey2)).1 = .ok dataBrokerConn

end authenticate

namespace authenticate

/-! ### A sample environment

A small concrete choice of collaborators, used to evaluate the bootstrap on concrete
configurations.  Keys, ciphers and encoders are represented by the key bytes they were
built from, a cookie store by its options and its encoder, and a cached connection by
a serial number. -/

/-- The other fields of `config.Options` in the sample environment. -/
structure SampleRest where
  /-- The parsed authenticate service URL. -/
  AuthenticateURL : url.URL
  /-- The decoded shared secret. -/
  SharedKey : Bytes
  /-- The decoded cookie secret. -/
  CookieSecret : Bytes
  /-- The contents of the file named by the signing-key-file option, empty when the
  option is not set. -/
  SigningKeyFile : String

/-- The sample cache: the fingerprint and serial number of the cached connection, if
any, and the number of connections created so far. -/
structure SampleCache where
  current : Option (grpc.OutboundOptions × Nat)
  created : Nat
  deriving DecidableEq, Repr

/-- The result types of the sample environment. -/
abbrev sampleSig : Sig where
  OptionsRest := SampleRest
  AEAD := Bytes
  MarshalUnmarshaler := Bytes
  CookieStore := cookie.Options × Bytes
  JSONWebKey := Bytes
  ClientConn := Nat
  DataBrokerServiceClient := Nat
  CredentialStorage := Nat
  RelyingParty := String × Nat
  CachedOutboundGRPClientConn := SampleCache

/-- The characters of the standard base64 alphabet, and the padding character. -/
def sampleBase64Char (c : Char) : Bool :=
  c.isAlphanum || c = '+' || c = '/' || c = '='

/-- The sample cache lookup: an entry with the same fingerprint is reused, any other
request creates a connection with the next serial number and replaces the entry. -/
def sampleGet (cache : SampleCache) (opts : grpc.OutboundOptions) :
    Except GoError Nat × SampleCache :=
  match cache.current with
  | some (cached, conn) =>
    if cached = opts then (.ok conn, cache)
    else (.ok (cache.created + 1),
          { current := some (opts, cache.created + 1), created := cache.created + 1 })
  | none =>
    (.ok (cache.created + 1),
     { current := some (opts, cache.created + 1), created := cache.created + 1 })

/-- The sample collaborators.  The signing key comes from the signing-key file when one
is given and from the `SigningKey` option otherwise; the base64 decoder is a stand-in
that accepts the strings over the base64 alphabet whose length is a multiple of four and
yields their character codes. -/
def sampleExternals : Externals sampleSig where
  ValidateOptions o :=
    if o.CookieName = "" then some (.new "authenticate: cookie name is required") else none
  GetAuthenticateURL o urls :=
    if o.Rest.AuthenticateURL.Host = "" then .error (.new "config: missing authenticate url")
    else .ok (0, Function.update urls 0 o.Rest.AuthenticateURL)
  DeepCopy p urls := .ok (p + 1, Function.update urls (p + 1) (urls p))
  GetSharedKey o :=
    if o.Rest.SharedKey = [] then .error (.new "empty shared secret")
    else .ok o.Rest.SharedKey
  NewAEADCipher secret :=
    if secret = [] then .error (.new "cryptutil: invalid key size") else .ok secret
  NewHS256Signer key := .ok key
  GetCookieSecret o :=
    if o.Rest.CookieSecret = [] then .error (.new "empty cookie secret")
    else .ok o.Rest.CookieSecret
  NewStore getOptions encoder := .ok (getOptions (), encoder)
  GetSigningKey o :=
    if o.Rest.SigningKeyFile = "" then .ok o.SigningKey else .ok o.Rest.SigningKeyFile
  DecodeString s :=
    if s.data.all sampleBase64Char && s.data.length % 4 = 0 then
      .ok (s.data.map fun c => c.toNat.toUInt8)
    else .error (.new "illegal base64 data")
  PublicJWKFromBytes data :=
    if data = [] then .error (.new "cryptutil: unsupported key type") else .ok data
  Get := sampleGet
  NewDataBrokerServiceClient conn := conn
  NewCredentialStorage client := client
  URLString u := u.Scheme ++ "://" ++ u.Host ++ u.Path
  NewRelyingParty origin storage := (origin, storage)

/-- A sample configuration, parameterized by the signing-key option, the contents of
the signing-key file, the installation identity and the cookie secret. -/
def sampleConfig (signingKey signingKeyFile installationID : String) (cookieSecret : Bytes) :
    config.Config SampleRest where
  Options :=
    { AuthenticateCallbackPath := "/oauth2/callback"
      CookieName := "_pomerium"
      CookieDomain := "example.com"
      CookieSecure := true
      CookieHTTPOnly := true
      CookieExpire := 50400000000000
      SigningKey := signingKey
      InstallationID := installationID
      Services := "authenticate"
      Rest :=
        { AuthenticateURL :=
            { Scheme := "https", Host := "authenticate.example.com", Path := "/" }
          SharedKey := [1, 2, 3]
          CookieSecret := cookieSecret
          SigningKeyFile := signingKeyFile } }
  OutboundPort := "5443"

/-- A sample world: every address holds the zero `url.URL`, the cache is empty and
`Get` has not been called. -/
def sampleWorld : World sampleSig where
  urls := fun _ => {}
  outboundGRPCConnection := { current := none, created := 0 }
  getCalls := []

end authenticate

namespace config

/-! ## Properties of the field check -/

theorem checkUnknownConfigFieldsStep_eq (out : List FieldMsg) (key : String) :
    checkUnknownConfigFieldsStep out key = out ++ classifyPath (reKeyPathReplaceAllString key) := by
  unfold checkUnknownConfigFieldsStep classifyPath
  cases h : removedConfigFields.lookup (reKeyPathReplaceAllString key) with
  | some url => simp [h, KeyActionError, FieldCheckMsgRemoved]
  | none =>
    by_cases hi : reKeyPathReplaceAllString key ∈ ignoreConfigFields
    · simp [h, hi]
    · simp [h, hi, KeyActionWarn, FieldCheckMsgUnknown]

theorem foldl_checkUnknownConfigFieldsStep (fields : List String) (out : List FieldMsg) :
    fields.foldl checkUnknownConfigFieldsStep out
      = out ++ fields.flatMap (fun key => classifyPath (reKeyPathReplaceAllString key)) := by
  induction fields generalizing out with
  | nil => simp
  | cons key rest ih =>
    simp only [List.foldl_cons, List.flatMap_cons, ih, checkUnknownConfigFieldsStep_eq,
      List.append_assoc]

theorem checkUnknownConfigFields_eq_flatMap (fields : List String) :
    CheckUnknownConfigFields fields
      = fields.flatMap (fun key => classifyPath (reKeyPathReplaceAllString key)) := by
  simp [CheckUnknownConfigFields, foldl_checkUnknownConfigFieldsStep]

/-! ### Facts about the scan -/

theorem reKeyPathReplaceAllAux_drop (n : Nat) (s : List Char) :
    reKeyPathReplaceAllAux n s = reKeyPathReplaceAllAux 0 (s.drop n) := by
  induction n generalizing s with
  | zero => simp
  | succ n ih =>
    cases s with
    | nil => simp [reKeyPathReplaceAllAux]
    | cons c cs => simp [reKeyPathReplaceAllAux, ih cs]

theorem reKeyPathTailLen_digits (ds rest : List Char) (hd : ∀ d ∈ ds, d.isDigit = true) :
    reKeyPathTailLen (ds ++ ']' :: rest) = some (ds.length + 1) := by
  induction ds with
  | nil => simp [reKeyPathTailLen]
  | cons d ds ih =>
    have hdig : d.isDigit = true := hd d (List.mem_cons_self _ _)
    have hne : d ≠ ']' := by
      intro h
      rw [h] at hdig
      exact absurd hdig (by decide)
    have ih2 := ih (fun x hx => hd x (List.mem_cons_of_mem _ hx))
    simp [reKeyPathTailLen, hne, hdig, ih2]

theorem reKeyPathMatchLen_segment (ds rest : List Char) (hne : ds ≠ [])
    (hd : ∀ d ∈ ds, d.isDigit = true) :
    reKeyPathMatchLen ('[' :: (ds ++ ']' :: rest)) = some (ds.length + 2) := by
  cases ds with
  | nil => exact absurd rfl hne
  | cons d ds =>
    have hdig : d.isDigit = true := hd d (List.mem_cons_self _ _)
    have ht := reKeyPathTailLen_digits ds rest (fun x hx => hd x (List.mem_cons_of_mem _ hx))
    simp [reKeyPathMatchLen, hdig, ht]

theorem everyBracketIndexed_suffix (a t : List Char) (h : EveryBracketIndexed (a ++ t)) :
    EveryBracketIndexed t := by
  intro pre suf hs
  exact h (a ++ pre) suf (by rw [hs, List.append_assoc])

theorem reKeyPathReplaceAllAux_no_bracket (n : Nat) :
    ∀ s : List Char, s.length ≤ n → EveryBracketIndexed s →
      '[' ∉ reKeyPathReplaceAllAux 0 s := by
  induction n with
  | zero =>
    intro s hlen _
    have : s = [] := List.length_eq_zero.mp (Nat.le_zero.mp hlen)
    subst this
    simp [reKeyPathReplaceAllAux]
  | succ n ih =>
    intro s hlen hs
    cases s with
    | nil => simp [reKeyPathReplaceAllAux]
    | cons c cs =>
      have hcs : cs.length ≤ n := by simpa using hlen
      cases hm : reKeyPathMatchLen (c :: cs) with
      | some len =>
        have hsuf : EveryBracketIndexed (cs.drop (len - 1)) := by
          apply everyBracketIndexed_suffix (c :: cs.take (len - 1))
          simpa using hs
        have hl : (cs.drop (len - 1)).length ≤ n := by
          rw [List.length_drop]; omega
        have := ih _ hl hsuf
        simp only [reKeyPathReplaceAllAux, hm]
        rw [reKeyPathReplaceAllAux_drop]
        exact this
      | none =>
        have hc : c ≠ '[' := by
          intro h
          subst h
          obtain ⟨ds, rest, hne, hd, hsuf⟩ := hs [] cs rfl
          rw [hsuf, reKeyPathMatchLen_segment ds rest hne hd] at hm
          exact Option.noConfusion hm
        have := ih cs hcs (everyBracketIndexed_suffix [c] cs (by simpa using hs))
        simp only [reKeyPathReplaceAllAux, hm, List.mem_cons, not_or]
        exact ⟨fun h => hc h.symm, this⟩

theorem reKeyPathReplaceAllAux_fixed (t : List Char) (h : '[' ∉ t) :
    reKeyPathReplaceAllAux 0 t = t := by
  induction t with
  | nil => simp [reKeyPathReplaceAllAux]
  | cons c cs ih =>
    have hc : c ≠ '[' := fun e => h (by simp [e])
    have hcs : '[' ∉ cs := fun e => h (List.mem_cons_of_mem _ e)
    simp [reKeyPathReplaceAllAux, reKeyPathMatchLen, hc, ih hcs]

theorem not_containsIndexSegment_of_no_bracket (t : List Char) (h : '[' ∉ t) :
    ¬ ContainsIndexSegment t := by
  rintro ⟨pre, ds, suf, _, _, rfl⟩
  exact h (by simp)

theorem mem_classifyPath_key (p : String) (msg : FieldMsg) (h : msg ∈ classifyPath p) :
    msg.Key = p := by
  unfold classifyPath at h
  split at h
  · simp at h; simp [h]
  · split at h
    · simp at h
    · simp at h; simp [h]

theorem reKeyPathTailLen_sound (cs : List Char) (n : Nat) (h : reKeyPathTailLen cs = some n) :
    ∃ ds rest, (∀ d ∈ ds, d.isDigit = true) ∧ cs = ds ++ ']' :: rest := by
  induction cs generalizing n with
  | nil => simp [reKeyPathTailLen] at h
  | cons c cs ih =>
    by_cases hc : c = ']'
    · exact ⟨[], cs, by simp, by simp [hc]⟩
    · by_cases hd : c.isDigit = true
      · simp only [reKeyPathTailLen, hc, hd, if_false, if_true, Option.map_eq_some'] at h
        obtain ⟨m, hm, _⟩ := h
        obtain ⟨ds, rest, hds, hcs⟩ := ih m hm
        refine ⟨c :: ds, rest, ?_, by simp [hcs]⟩
        intro d hmem
        rcases List.mem_cons.mp hmem with h1 | h1
        · rw [h1]; exact hd
        · exact hds d h1
      · simp [reKeyPathTailLen, hc, hd] at h

theorem reKeyPathMatchLen_sound (suf : List Char)
    (h : (reKeyPathMatchLen ('[' :: suf)).isSome = true) :
    ∃ ds rest, ds ≠ [] ∧ (∀ d ∈ ds, d.isDigit = true) ∧ suf = ds ++ ']' :: rest := by
  cases suf with
  | nil => simp [reKeyPathMatchLen] at h
  | cons d ds =>
    by_cases hd : d.isDigit = true
    · simp only [reKeyPathMatchLen, hd, if_true, Option.isSome_map'] at h
      obtain ⟨n, hn⟩ := Option.isSome_iff_exists.mp h
      obtain ⟨ds2, rest, hds, hcs⟩ := reKeyPathTailLen_sound ds n hn
      refine ⟨d :: ds2, rest, by simp, ?_, by simp [hcs]⟩
      intro x hmem
      rcases List.mem_cons.mp hmem with h1 | h1
      · rw [h1]; exact hd
      · exact hds x h1
    · simp [reKeyPathMatchLen, hd] at h

theorem everyBracketIndexed_of_check (s : List Char) (h : everyBracketIndexedCheck s = true) :
    EveryBracketIndexed s := by
  induction s with
  | nil =>
    intro pre suf hs
    simp at hs
  | cons c cs ih =>
    simp only [everyBracketIndexedCheck, Bool.and_eq_true, Bool.or_eq_true, bne_iff_ne, ne_eq] at h
    obtain ⟨hhead, htail⟩ := h
    intro pre suf hs
    cases pre with
    | nil =>
      simp only [List.nil_append, List.cons.injEq] at hs
      obtain ⟨hc, hcs⟩ := hs
      subst hc
      subst hcs
      rcases hhead with h1 | h1
      · exact absurd rfl h1
      · exact reKeyPathMatchLen_sound _ h1
    | cons p pre =>
      simp only [List.cons_append, List.cons.injEq] at hs
      exact ih htail pre suf hs.2

theorem reKeyPathMatchLen_isSome_iff (s : List Char) :
    (reKeyPathMatchLen s).isSome = true ↔ StartsWithIndexSegment s := by
  constructor
  · intro h
    cases s with
    | nil => simp [reKeyPathMatchLen] at h
    | cons c cs =>
      by_cases hc : c = '['
      · subst hc
        obtain ⟨ds, rest, hne, hd, hs⟩ := reKeyPathMatchLen_sound cs h
        exact ⟨ds, rest, hne, hd, by rw [hs]⟩
      · simp [reKeyPathMatchLen, hc] at h
  · rintro ⟨ds, rest, hne, hd, rfl⟩
    rw [reKeyPathMatchLen_segment ds rest hne hd]
    rfl

theorem reKeyPathReplaceAllAux_segment (ds rest : List Char) (hne : ds ≠ [])
    (hd : ∀ d ∈ ds, d.isDigit = true) :
    reKeyPathReplaceAllAux 0 ('[' :: (ds ++ ']' :: rest)) = reKeyPathReplaceAllAux 0 rest := by
  simp only [reKeyPathReplaceAllAux, reKeyPathMatchLen_segment ds rest hne hd]
  rw [reKeyPathReplaceAllAux_drop]
  congr 1
  simp

theorem reKeyPathReplaceAllAux_keep (c : Char) (cs : List Char)
    (hc : ¬ StartsWithIndexSegment (c :: cs)) :
    reKeyPathReplaceAllAux 0 (c :: cs) = c :: reKeyPathReplaceAllAux 0 cs := by
  have hnone : reKeyPathMatchLen (c :: cs) = none := by
    cases hm : reKeyPathMatchLen (c :: cs) with
    | none => rfl
    | some len =>
      exact absurd ((reKeyPathMatchLen_isSome_iff _).mp (by rw [hm]; rfl)) hc
  simp only [reKeyPathReplaceAllAux, hnone]

theorem reKeyPathReplaceAllAux_of_stripped (s out : List Char)
    (h : IndexSegmentsStripped s out) : reKeyPathReplaceAllAux 0 s = out := by
  induction h with
  | done => rfl
  | strip ds rest out hne hd _ ih => rw [reKeyPathReplaceAllAux_segment ds rest hne hd, ih]
  | keep c cs out hc _ ih => rw [reKeyPathReplaceAllAux_keep c cs hc, ih]

theorem indexSegmentsStripped_reKeyPathReplaceAllAux (n : Nat) :
    ∀ s : List Char, s.length ≤ n → IndexSegmentsStripped s (reKeyPathReplaceAllAux 0 s) := by
  induction n with
  | zero =>
    intro s hlen
    have : s = [] := List.length_eq_zero.mp (Nat.le_zero.mp hlen)
    subst this
    exact IndexSegmentsStripped.done
  | succ n ih =>
    intro s hlen
    cases s with
    | nil => exact IndexSegmentsStripped.done
    | cons c cs =>
      have hcs : cs.length ≤ n := by simpa using hlen
      by_cases hseg : StartsWithIndexSegment (c :: cs)
      · obtain ⟨ds, rest, hne, hd, hs⟩ := hseg
        rw [hs, reKeyPathReplaceAllAux_segment ds rest hne hd]
        have hrest : rest.length ≤ n := by
          have hl := congrArg List.length hs
          simp only [List.length_cons, List.length_append] at hl
          omega
        exact IndexSegmentsStripped.strip ds rest _ hne hd (ih rest hrest)
      · rw [reKeyPathReplaceAllAux_keep c cs hseg]
        exact IndexSegmentsStripped.keep c cs _ hseg (ih cs hcs)

theorem indexSegmentsStripped_iff (key : String) (out : List Char) :
    IndexSegmentsStripped key.data out ↔ out = (reKeyPathReplaceAllString key).data := by
  constructor
  · intro h
    exact (reKeyPathReplaceAllAux_of_stripped _ _ h).symm
  · intro h
    rw [h]
    exact indexSegmentsStripped_reKeyPathReplaceAllAux _ _ (Nat.le_refl _)

theorem lookup_eq_none_of_not_mem (l : List (String × String)) (p : String)
    (h : ∀ url, (p, url) ∉ l) : l.lookup p = none := by
  induction l with
  | nil => rfl
  | cons kv rest ih =>
    obtain ⟨k, v⟩ := kv
    have hk : p ≠ k := by
      intro e
      exact h v (by simp [e])
    have hrest : ∀ url, (p, url) ∉ rest := fun url hm => h url (List.mem_cons_of_mem _ hm)
    have hbeq : (p == k) = false := by simpa using hk
    simp only [List.lookup, hbeq, ih hrest]

theorem classifyPath_removed (p url : String) (h : (p, url) ∈ removedConfigFields) :
    classifyPath p = [{ Key := p, DocsURL := url, KeyAction := "error",
                        FieldCheckMsg := "config option was removed" }] := by
  simp only [removedConfigFields, List.mem_cons, Prod.mk.injEq, List.mem_singleton,
    List.not_mem_nil, or_false] at h
  rcases h with ⟨rfl, rfl⟩ | ⟨rfl, rfl⟩ | ⟨rfl, rfl⟩ | ⟨rfl, rfl⟩ | ⟨rfl, rfl⟩ | ⟨rfl, rfl⟩ <;> decide

theorem classifyPath_not_removed (p : String) (h : ∀ url, (p, url) ∉ removedConfigFields) :
    classifyPath p =
      if p ∈ ignoreConfigFields then []
      else [{ Key := p, DocsURL := "", KeyAction := "warn",
              FieldCheckMsg := "unknown config option" }] := by
  simp [classifyPath, lookup_eq_none_of_not_mem _ _ h]

/-! ### Claims about the field check -/

/-- C1: for every list of field paths `CheckUnknownConfigFields` returns the
concatenation, in input order, of the classification of each normalized path, where the
normalized path of every field is the field with its numeric index segments stripped
(and nothing else is); a path of the removed-fields table is classified as one
`error/removed` message with the URL of the table, any other path of the ignore-fields
table as no message, and any other path as one `warn/unknown` message with an empty
URL.  On `["idp_service_account", "routes[2].health_checks", "totally_unknown"]` the
result is exactly the `error/removed` message keyed `idp_service_account` followed by
the `warn/unknown` message keyed `totally_unknown`; and a list that names every entry of
the two tables (six removed fields, two ignored ones) under indices of one and of
several digits is classified entry by entry. -/
theorem checkUnknownConfigFields_classification :
    (∀ fields : List String,
      CheckUnknownConfigFields fields
        = fields.flatMap (fun key => classifyPath (reKeyPathReplaceAllString key))) ∧
    (∀ (key : String) (out : List Char),
      IndexSegmentsStripped key.data out ↔ out = (reKeyPathReplaceAllString key).data) ∧
    (∀ p url, (p, url) ∈ removedConfigFields →
      classifyPath p = [{ Key := p, DocsURL := url, KeyAction := "error",
                          FieldCheckMsg := "config option was removed" }]) ∧
    (∀ p, (∀ url, (p, url) ∉ removedConfigFields) → p ∈ ignoreConfigFields →
      classifyPath p = []) ∧
    (∀ p, (∀ url, (p, url) ∉ removedConfigFields) → p ∉ ignoreConfigFields →
      classifyPath p = [{ Key := p, DocsURL := "", KeyAction := "warn",
                          FieldCheckMsg := "unknown config option" }]) ∧
    removedConfigFields.length = 6 ∧ ignoreConfigFields.length = 2 ∧
    reKeyPathReplaceAllString "routes[2].health_checks" = "routes.health_checks" ∧
    CheckUnknownConfigFields ["idp_service_account", "routes[2].health_checks", "totally_unknown"]
      = [ { Key := "idp_service_account"
            DocsURL := "https://docs.pomerium.com/docs/overview/upgrading#idp-directory-sync"
            KeyAction := "error"
            FieldCheckMsg := "config option was removed" },
          { Key := "totally_unknown"
            DocsURL := ""
            KeyAction := "warn"
            FieldCheckMsg := "unknown config option" } ] ∧
    CheckUnknownConfigFields
        [ "idp_refresh_directory_timeout", "routes[3].outlier_detection",
          "idp_refresh_directory_interval", "idp_qps", "routes[12].allowed_groups",
          "routes[0].set_authorization_header", "routes[407].health_checks",
          "routes[12].to[3]", "routes[].allowed_groups", "routes[1a].allowed_groups" ]
      = [ { Key := "idp_refresh_directory_timeout"
            DocsURL := "https://docs.pomerium.com/docs/overview/upgrading#idp-directory-sync"
            KeyAction := "error"
            FieldCheckMsg := "config option was removed" },
          { Key := "idp_refresh_directory_interval"
            DocsURL := "https://docs.pomerium.com/docs/overview/upgrading#idp-directory-sync"
            KeyAction := "error"
            FieldCheckMsg := "config option was removed" },
          { Key := "idp_qps"
            DocsURL := "https://docs.pomerium.com/docs/overview/upgrading#idp-directory-sync"
            KeyAction := "error"
            FieldCheckMsg := "config option was removed" },
          { Key := "routes.allowed_groups"
            DocsURL := "https://docs.pomerium.com/docs/overview/upgrading#idp-groups-policy"
            KeyAction := "error"
            FieldCheckMsg := "config option was removed" },
          { Key := "routes.set_authorization_header"
            DocsURL :=
              "https://www.pomerium.com/docs/deploy/core/upgrading#set-authorization-header"
            KeyAction := "error"
            FieldCheckMsg := "config option was removed" },
          { Key := "routes.to"
            DocsURL := ""
            KeyAction := "warn"
            FieldCheckMsg := "unknown config option" },
          { Key := "routes[].allowed_groups"
            DocsURL := ""
            KeyAction := "warn"
            FieldCheckMsg := "unknown config option" },
          { Key := "routes[1a].allowed_groups"
            DocsURL := ""
            KeyAction := "warn"
            FieldCheckMsg := "unknown config option" } ] := by
  refine ⟨checkUnknownConfigFields_eq_flatMap, indexSegmentsStripped_iff,
    classifyPath_removed, ?_, ?_, rfl, rfl, ?_, ?_, ?_⟩
  · intro p hr hi
    rw [classifyPath_not_removed p hr, if_pos hi]
  · intro p hr hi
    rw [classifyPath_not_removed p hr, if_neg hi]
  · decide
  · decide
  · decide

/-- C5, as stated, fails: for the field `routes[[1]2].to` the emitted Key is
`routes[2].to`, which contains the index segment `[2]` and is changed by normalizing it
again. -/
theorem checkUnknownConfigFields_key_keeps_segment :
    ∃ msg ∈ CheckUnknownConfigFields ["routes[[1]2].to"],
      msg.Key = "routes[2].to" ∧ ContainsIndexSegment msg.Key.data ∧
      reKeyPathReplaceAllString msg.Key ≠ msg.Key := by
  refine ⟨{ Key := "routes[2].to", KeyAction := "warn",
            FieldCheckMsg := "unknown config option" }, by decide, rfl, ?_, by decide⟩
  exact ⟨"routes".data, ['2'], ".to".data, by decide, by decide, by decide⟩

/-- C5, amended: every message `CheckUnknownConfigFields` emits is the classification
of `reKeyPath.ReplaceAllString(field, "")` for one of the input fields, and its Key is
that path, the result of one left-to-right removal of the non-overlapping index
segments of the field; when every `[` of the field opens an index segment, the Key
contains no index segment and normalizing it again leaves it unchanged. -/
theorem checkUnknownConfigFields_key_normalized (fields : List String) (msg : FieldMsg)
    (h : msg ∈ CheckUnknownConfigFields fields) :
    ∃ field ∈ fields,
      msg ∈ classifyPath (reKeyPathReplaceAllString field) ∧
      msg.Key = reKeyPathReplaceAllString field ∧
      (EveryBracketIndexed field.data →
        ¬ ContainsIndexSegment msg.Key.data ∧ reKeyPathReplaceAllString msg.Key = msg.Key) := by
  rw [checkUnknownConfigFields_eq_flatMap, List.mem_flatMap] at h
  obtain ⟨field, hf, hmsg⟩ := h
  have hkey := mem_classifyPath_key _ _ hmsg
  refine ⟨field, hf, hmsg, hkey, fun hidx => ?_⟩
  have hno : '[' ∉ msg.Key.data := by
    rw [hkey]
    exact reKeyPathReplaceAllAux_no_bracket _ _ (Nat.le_refl _) hidx
  refine ⟨not_containsIndexSegment_of_no_bracket _ hno, ?_⟩
  show String.mk (reKeyPathReplaceAllAux 0 msg.Key.data) = msg.Key
  rw [reKeyPathReplaceAllAux_fixed _ hno]

/-- C5, amended, on the fields `routes[2].health_checks` and `routes[3].foo`: the
message keyed `routes.foo` comes from a field with indexed brackets only. -/
theorem checkUnknownConfigFields_key_normalized_witness :
    (∃ field ∈ ["routes[2].health_checks", "routes[3].foo"],
      ({ Key := "routes.foo", KeyAction := "warn",
         FieldCheckMsg := "unknown config option" } : FieldMsg)
        ∈ classifyPath (reKeyPathReplaceAllString field) ∧
      "routes.foo" = reKeyPathReplaceAllString field ∧
      (EveryBracketIndexed field.data →
        ¬ ContainsIndexSegment "routes.foo".data ∧
          reKeyPathReplaceAllString "routes.foo" = "routes.foo")) ∧
    EveryBracketIndexed "routes[2].health_checks".data ∧
    EveryBracketIndexed "routes[3].foo".data :=
  ⟨checkUnknownConfigFields_key_normalized ["routes[2].health_checks", "routes[3].foo"]
    { Key := "routes.foo", KeyAction := "warn", FieldCheckMsg := "unknown config option" }
    (by decide),
   everyBracketIndexed_of_check _ (by decide), everyBracketIndexed_of_check _ (by decide)⟩

end config

namespace authenticate

/-! ## Properties of the bootstrap -/

/-- The bootstrap against the pipeline: when a step before connection acquisition
fails, the bootstrap returns that error and neither the cache nor the record of its
`Get` calls has changed; otherwise the bootstrap calls `Get` once, with the fingerprint,
and its result is that of the acquisition followed by the binding. -/
theorem newAuthenticateStateFromConfig_pipeline {T : Sig} (X : Externals T)
    (cfg : config.Config T.OptionsRest) (w : World T) :
    match preConnectionSteps X cfg w.urls with
    | .error err =>
      ∃ w2 : World T, newAuthenticateStateFromConfig X cfg w = ((none, some err), w2) ∧
        w2.outboundGRPCConnection = w.outboundGRPCConnection ∧ w2.getCalls = w.getCalls
    | .ok pre =>
      newAuthenticateStateFromConfig X cfg w =
        (match (X.Get w.outboundGRPCConnection pre.fingerprint).1 with
          | .error err => (none, some err)
          | .ok dataBrokerConn =>
            (some { pre.state with
              dataBrokerClient := some (X.NewDataBrokerServiceClient dataBrokerConn)
              webauthnRelyingParty := some (X.NewRelyingParty
                (X.URLString (pre.urls pre.authenticateURL))
                (X.NewCredentialStorage (X.NewDataBrokerServiceClient dataBrokerConn))) },
             none),
         { urls := pre.urls
           outboundGRPCConnection := (X.Get w.outboundGRPCConnection pre.fingerprint).2
           getCalls := w.getCalls ++ [pre.fingerprint] }) := by
  unfold preConnectionSteps validateStep signingKeyStep newAuthenticateStateFromConfig
  cases h1 : X.ValidateOptions cfg.Options with
  | some e => simp [bind, Except.bind]
  | none =>
  simp only [h1, bind, Except.bind]
  cases h2 : X.GetAuthenticateURL cfg.Options w.urls with
  | error e => simp
  | ok r2 =>
  obtain ⟨authenticateURL, urls1⟩ := r2
  simp only [h2]
  cases h3 : X.DeepCopy authenticateURL urls1 with
  | error e => simp
  | ok r3 =>
  obtain ⟨redirectURL, urls2⟩ := r3
  simp only [h3]
  cases h4 : X.GetSharedKey cfg.Options with
  | error e => simp
  | ok sharedKey =>
  simp only [h4]
  cases h5 : X.NewAEADCipher sharedKey with
  | error e => simp
  | ok sharedCipher =>
  simp only [h5]
  cases h6 : X.NewHS256Signer sharedKey with
  | error e => simp
  | ok sharedEncoder =>
  simp only [h6]
  cases h7 : X.GetCookieSecret cfg.Options with
  | error e => simp
  | ok cookieSecret =>
  simp only [h7]
  cases h8 : X.NewAEADCipher cookieSecret with
  | error e => simp
  | ok cookieCipher =>
  simp only [h8]
  have hopts : (fun _ : Unit => cookieOptionsOf cfg) = (fun _ : Unit =>
      ({ Name := cfg.Options.CookieName
         Domain := cfg.Options.CookieDomain
         Secure := cfg.Options.CookieSecure
         HTTPOnly := cfg.Options.CookieHTTPOnly
         Expire := cfg.Options.CookieExpire } : cookie.Options)) := rfl
  rw [hopts]
  cases h9 : X.NewStore (fun _ : Unit =>
      ({ Name := cfg.Options.CookieName
         Domain := cfg.Options.CookieDomain
         Secure := cfg.Options.CookieSecure
         HTTPOnly := cfg.Options.CookieHTTPOnly
         Expire := cfg.Options.CookieExpire } : cookie.Options)) sharedEncoder with
  | error e => simp
  | ok cookieStore =>
  simp only []
  cases h10 : X.GetSigningKey cfg.Options with
  | error e => simp
  | ok signingKey =>
  simp only []
  by_cases hk : signingKey = ""
  · simp only [hk, fingerprintOf, pure, Except.pure, ne_eq, not_true_eq_false, if_false,
      if_true]
    cases (X.Get w.outboundGRPCConnection
      { OutboundPort := cfg.OutboundPort, InstallationID := cfg.Options.InstallationID,
        ServiceName := cfg.Options.Services, SignedJWTKey := sharedKey }).1 <;> rfl
  · simp only [hk, if_false, ne_eq, not_false_eq_true, if_true]
    cases h11 : X.DecodeString cfg.Options.SigningKey with
    | error e => simp [Except.mapError]
    | ok decodedCert =>
    simp only [Except.mapError]
    cases h12 : X.PublicJWKFromBytes decodedCert with
    | error e => simp
    | ok jwk =>
    simp only [fingerprintOf, pure, Except.pure]
    cases (X.Get w.outboundGRPCConnection
      { OutboundPort := cfg.OutboundPort, InstallationID := cfg.Options.InstallationID,
        ServiceName := cfg.Options.Services, SignedJWTKey := sharedKey }).1 <;> rfl

theorem signingKeyStep_ok {T : Sig} (X : Externals T) (cfg : config.Config T.OptionsRest)
    (keys : List T.JSONWebKey) (h : signingKeyStep X cfg = .ok keys) :
    ∃ signingKey, X.GetSigningKey cfg.Options = .ok signingKey ∧
      ((signingKey = "" ∧ keys = []) ∨
       (signingKey ≠ "" ∧ ∃ decodedCert jwk,
          X.DecodeString cfg.Options.SigningKey = .ok decodedCert ∧
          X.PublicJWKFromBytes decodedCert = .ok jwk ∧ keys = [jwk])) := by
  unfold signingKeyStep at h
  cases h10 : X.GetSigningKey cfg.Options with
  | error e => simp [h10, bind, Except.bind] at h
  | ok signingKey =>
  refine ⟨signingKey, rfl, ?_⟩
  simp only [h10, bind, Except.bind] at h
  by_cases hk : signingKey = ""
  · left
    simp only [hk, if_true, pure, Except.pure, Except.ok.injEq] at h
    exact ⟨hk, h.symm⟩
  · right
    simp only [hk, if_false] at h
    cases h11 : X.DecodeString cfg.Options.SigningKey with
    | error e => simp [h11, Except.mapError] at h
    | ok decodedCert =>
    simp only [h11, Except.mapError] at h
    cases h12 : X.PublicJWKFromBytes decodedCert with
    | error e => simp [h12] at h
    | ok jwk =>
    simp only [h12, pure, Except.pure, Except.ok.injEq] at h
    exact ⟨hk, decodedCert, jwk, rfl, h12, h.symm⟩

theorem preConnectionSteps_ok {T : Sig} (X : Externals T) (cfg : config.Config T.OptionsRest)
    (urls : URLStore) (pre : PreConnection T) (h : preConnectionSteps X cfg urls = .ok pre) :
    ∃ authenticateURL urls1 redirectURL urls2 sharedKey sharedCipher sharedEncoder
        cookieSecret cookieCipher cookieStore keys,
      X.ValidateOptions cfg.Options = none ∧
      X.GetAuthenticateURL cfg.Options urls = .ok (authenticateURL, urls1) ∧
      X.DeepCopy authenticateURL urls1 = .ok (redirectURL, urls2) ∧
      X.GetSharedKey cfg.Options = .ok sharedKey ∧
      X.NewAEADCipher sharedKey = .ok sharedCipher ∧
      X.NewHS256Signer sharedKey = .ok sharedEncoder ∧
      X.GetCookieSecret cfg.Options = .ok cookieSecret ∧
      X.NewAEADCipher cookieSecret = .ok cookieCipher ∧
      X.NewStore (fun _ => cookieOptionsOf cfg) sharedEncoder = .ok cookieStore ∧
      signingKeyStep X cfg = .ok keys ∧
      pre =
        { state :=
            { redirectURL := some redirectURL
              sharedEncoder := some sharedEncoder
              sharedKey := sharedKey
              sharedCipher := some sharedCipher
              cookieSecret := cookieSecret
              cookieCipher := some cookieCipher
              sessionStore := some cookieStore
              sessionLoader := some cookieStore
              jwk := some { Keys := keys } }
          authenticateURL := authenticateURL
          urls := Function.update urls2 redirectURL
            { urls2 redirectURL with Path := cfg.Options.AuthenticateCallbackPath }
          fingerprint := fingerprintOf cfg sharedKey } := by
  unfold preConnectionSteps validateStep at h
  cases h1 : X.ValidateOptions cfg.Options with
  | some e => simp [h1, bind, Except.bind] at h
  | none =>
  simp only [h1, bind, Except.bind] at h
  cases h2 : X.GetAuthenticateURL cfg.Options urls with
  | error e => simp [h2] at h
  | ok r2 =>
  obtain ⟨authenticateURL, urls1⟩ := r2
  simp only [h2] at h
  cases h3 : X.DeepCopy authenticateURL urls1 with
  | error e => simp [h3] at h
  | ok r3 =>
  obtain ⟨redirectURL, urls2⟩ := r3
  simp only [h3] at h
  cases h4 : X.GetSharedKey cfg.Options with
  | error e => simp [h4] at h
  | ok sharedKey =>
  simp only [h4] at h
  cases h5 : X.NewAEADCipher sharedKey with
  | error e => simp [h5] at h
  | ok sharedCipher =>
  simp only [h5] at h
  cases h6 : X.NewHS256Signer sharedKey with
  | error e => simp [h6] at h
  | ok sharedEncoder =>
  simp only [h6] at h
  cases h7 : X.GetCookieSecret cfg.Options with
  | error e => simp [h7] at h
  | ok cookieSecret =>
  simp only [h7] at h
  cases h8 : X.NewAEADCipher cookieSecret with
  | error e => simp [h8] at h
  | ok cookieCipher =>
  simp only [h8] at h
  cases h9 : X.NewStore (fun _ => cookieOptionsOf cfg) sharedEncoder with
  | error e => simp [h9] at h
  | ok cookieStore =>
  simp only [h9] at h
  cases h10 : signingKeyStep X cfg with
  | error e => simp [h10] at h
  | ok keys =>
  simp only [h10, pure, Except.pure, Except.ok.injEq] at h
  exact ⟨authenticateURL, urls1, redirectURL, urls2, sharedKey, sharedCipher, sharedEncoder,
    cookieSecret, cookieCipher, cookieStore, keys, rfl, rfl, h3, rfl, h5, h6, rfl, h8, h9,
    rfl, h.symm⟩

theorem newAuthenticateStateFromConfig_ok {T : Sig} (X : Externals T)
    (cfg : config.Config T.OptionsRest) (w : World T) (st : authenticateState T)
    (w2 : World T) (h : newAuthenticateStateFromConfig X cfg w = ((some st, none), w2)) :
    ∃ pre dataBrokerConn,
      preConnectionSteps X cfg w.urls = .ok pre ∧
      (X.Get w.outboundGRPCConnection pre.fingerprint).1 = .ok dataBrokerConn ∧
      st = { pre.state with
              dataBrokerClient := some (X.NewDataBrokerServiceClient dataBrokerConn)
              webauthnRelyingParty := some (X.NewRelyingParty
                (X.URLString (pre.urls pre.authenticateURL))
                (X.NewCredentialStorage (X.NewDataBrokerServiceClient dataBrokerConn))) } ∧
      w2 = { urls := pre.urls
             outboundGRPCConnection := (X.Get w.outboundGRPCConnection pre.fingerprint).2
             getCalls := w.getCalls ++ [pre.fingerprint] } := by
  have hp := newAuthenticateStateFromConfig_pipeline X cfg w
  cases hpre : preConnectionSteps X cfg w.urls with
  | error e =>
    rw [hpre] at hp
    obtain ⟨w3, h3, _⟩ := hp
    rw [h] at h3
    simp at h3
  | ok pre =>
    rw [hpre] at hp
    simp only [] at hp
    rw [h] at hp
    cases hg : (X.Get w.outboundGRPCConnection pre.fingerprint).1 with
    | error e =>
      rw [hg] at hp
      simp at hp
    | ok dataBrokerConn =>
      rw [hg] at hp
      simp only [Prod.mk.injEq, Option.some.injEq, and_true] at hp
      exact ⟨pre, dataBrokerConn, rfl, hg, hp.1, hp.2⟩

theorem bootstrapPipeline_ok_iff {T : Sig} (X : Externals T)
    (cfg : config.Config T.OptionsRest) (w : World T) :
    (∃ st, bootstrapPipeline X cfg w = .ok st) ↔ AllStepsSucceed X cfg w := by
  constructor
  · rintro ⟨st, hst⟩
    unfold bootstrapPipeline at hst
    cases hpre : preConnectionSteps X cfg w.urls with
    | error e => simp [hpre, bind, Except.bind] at hst
    | ok pre =>
    simp only [hpre, bind, Except.bind] at hst
    cases hg : (X.Get w.outboundGRPCConnection pre.fingerprint).1 with
    | error e => simp [hg] at hst
    | ok dataBrokerConn =>
    obtain ⟨authenticateURL, urls1, redirectURL, urls2, sharedKey, sharedCipher, sharedEncoder,
      cookieSecret, cookieCipher, cookieStore, keys, h1, h2, h3, h4, h5, h6, h7, h8, h9, h10,
      hpre2⟩ := preConnectionSteps_ok X cfg w.urls pre hpre
    obtain ⟨signingKey, h11, h12⟩ := signingKeyStep_ok X cfg keys h10
    refine ⟨h1, authenticateURL, urls1, h2, ⟨_, h3⟩, sharedKey, h4, ⟨_, h5⟩, sharedEncoder, h6,
      cookieSecret, h7, ⟨_, h8⟩, ⟨_, h9⟩, ⟨signingKey, h11, ?_⟩, sharedKey, h4, dataBrokerConn, ?_⟩
    · intro hne
      rcases h12 with ⟨he, _⟩ | ⟨_, decodedCert, jwk, hd, hj, _⟩
      · exact absurd he hne
      · exact ⟨decodedCert, hd, jwk, hj⟩
    · rw [hpre2] at hg
      exact hg
  · rintro ⟨h1, authenticateURL, urls1, h2, ⟨⟨redirectURL, urls2⟩, h3⟩, sharedKey, h4,
      ⟨sharedCipher, h5⟩, sharedEncoder, h6, cookieSecret, h7, ⟨cookieCipher, h8⟩,
      ⟨cookieStore, h9⟩, ⟨signingKey, h10, hsk⟩, sharedKey2, h4b, dataBrokerConn, hg⟩
    have hk : sharedKey2 = sharedKey := by
      rw [h4] at h4b
      exact (Except.ok.inj h4b).symm
    subst hk
    by_cases hne : signingKey = ""
    · simp [bootstrapPipeline, preConnectionSteps, validateStep, signingKeyStep, bind,
        Except.bind, pure, Except.pure, h1, h2, h3, h4, h5, h6, h7, h8, h9, h10, hne, hg]
    · obtain ⟨decodedCert, hd, jwk, hj⟩ := hsk hne
      simp [bootstrapPipeline, preConnectionSteps, validateStep, signingKeyStep, bind,
        Except.bind, pure, Except.pure, Except.mapError, h1, h2, h3, h4, h5, h6, h7, h8, h9,
        h10, hne, hd, hj, hg]

theorem newAuthenticateStateFromConfig_eq_resultPair {T : Sig} (X : Externals T)
    (cfg : config.Config T.OptionsRest) (w : World T) :
    (newAuthenticateStateFromConfig X cfg w).1 = resultPair (bootstrapPipeline X cfg w) := by
  have hp := newAuthenticateStateFromConfig_pipeline X cfg w
  unfold bootstrapPipeline
  cases hpre : preConnectionSteps X cfg w.urls with
  | error e =>
    rw [hpre] at hp
    obtain ⟨w2, h2, _⟩ := hp
    simp [h2, bind, Except.bind, resultPair]
  | ok pre =>
    rw [hpre] at hp
    simp only [] at hp
    rw [hp]
    cases hg : (X.Get w.outboundGRPCConnection pre.fingerprint).1 <;>
      simp [bind, Except.bind, resultPair, hg, pure, Except.pure]

theorem newAuthenticateStateFromConfig_getCalls {T : Sig} (X : Externals T)
    (cfg : config.Config T.OptionsRest) (w : World T) :
    (newAuthenticateStateFromConfig X cfg w).2.getCalls = w.getCalls ∨
    ∃ sharedKey, X.GetSharedKey cfg.Options = .ok sharedKey ∧
      (newAuthenticateStateFromConfig X cfg w).2.getCalls
        = w.getCalls ++ [fingerprintOf cfg sharedKey] := by
  have hp := newAuthenticateStateFromConfig_pipeline X cfg w
  cases hpre : preConnectionSteps X cfg w.urls with
  | error e =>
    rw [hpre] at hp
    obtain ⟨w2, h2, _, hg⟩ := hp
    left
    rw [h2]
    exact hg
  | ok pre =>
    rw [hpre] at hp
    simp only [] at hp
    obtain ⟨authenticateURL, urls1, redirectURL, urls2, sharedKey, sharedCipher, sharedEncoder,
      cookieSecret, cookieCipher, cookieStore, keys, h1, h2, h3, h4, h5, h6, h7, h8, h9, h10,
      hpre2⟩ := preConnectionSteps_ok X cfg w.urls pre hpre
    right
    refine ⟨sharedKey, h4, ?_⟩
    rw [hp, hpre2]

theorem newAuthenticateStateFromConfig_requested {T : Sig} (X : Externals T)
    (cfg : config.Config T.OptionsRest) (w : World T) (fp : grpc.OutboundOptions)
    (h : (newAuthenticateStateFromConfig X cfg w).2.getCalls = w.getCalls ++ [fp]) :
    ∃ sharedKey, X.GetSharedKey cfg.Options = .ok sharedKey ∧ fp = fingerprintOf cfg sharedKey := by
  rcases newAuthenticateStateFromConfig_getCalls X cfg w with h1 | ⟨sharedKey, hk, h1⟩
  · rw [h1] at h
    have := congrArg List.length h
    simp at this
  · rw [h1] at h
    have := List.append_cancel_left h
    simp only [List.cons.injEq, and_true] at this
    exact ⟨sharedKey, hk, this.symm⟩

theorem newAuthenticateStateFromConfig_acquire {T : Sig} (X : Externals T)
    (cfg : config.Config T.OptionsRest) (w : World T) :
    ((newAuthenticateStateFromConfig X cfg w).2.getCalls = w.getCalls ∧
      (newAuthenticateStateFromConfig X cfg w).2.outboundGRPCConnection
        = w.outboundGRPCConnection ∧
      ∃ err, (newAuthenticateStateFromConfig X cfg w).1 = (none, some err)) ∨
    ∃ sharedKey, X.GetSharedKey cfg.Options = .ok sharedKey ∧
      (newAuthenticateStateFromConfig X cfg w).2.getCalls
        = w.getCalls ++ [fingerprintOf cfg sharedKey] ∧
      (newAuthenticateStateFromConfig X cfg w).2.outboundGRPCConnection
        = (X.Get w.outboundGRPCConnection (fingerprintOf cfg sharedKey)).2 ∧
      (∀ err, (X.Get w.outboundGRPCConnection (fingerprintOf cfg sharedKey)).1 = .error err →
        (newAuthenticateStateFromConfig X cfg w).1 = (none, some err)) ∧
      (∀ dataBrokerConn,
        (X.Get w.outboundGRPCConnection (fingerprintOf cfg sharedKey)).1 = .ok dataBrokerConn →
        ∃ st, (newAuthenticateStateFromConfig X cfg w).1 = (some st, none) ∧
          st.dataBrokerClient = some (X.NewDataBrokerServiceClient dataBrokerConn)) := by
  have hp := newAuthenticateStateFromConfig_pipeline X cfg w
  cases hpre : preConnectionSteps X cfg w.urls with
  | error e =>
    rw [hpre] at hp
    obtain ⟨w2, h2, hc, hg⟩ := hp
    left
    rw [h2]
    exact ⟨hg, hc, e, rfl⟩
  | ok pre =>
    rw [hpre] at hp
    simp only [] at hp
    obtain ⟨authenticateURL, urls1, redirectURL, urls2, sharedKey, sharedCipher, sharedEncoder,
      cookieSecret, cookieCipher, cookieStore, keys, h1, h2, h3, h4, h5, h6, h7, h8, h9, h10,
      hpre2⟩ := preConnectionSteps_ok X cfg w.urls pre hpre
    have hfp : pre.fingerprint = fingerprintOf cfg sharedKey := by rw [hpre2]
    rw [hfp] at hp
    right
    refine ⟨sharedKey, h4, ?_, ?_, ?_, ?_⟩
    · rw [hp]
    · rw [hp]
    · intro err hg
      rw [hp, hg]
    · intro dataBrokerConn hg
      rw [hp, hg]
      exact ⟨_, rfl, rfl⟩

theorem sampleExternals_deepCopyContract : DeepCopyContract sampleExternals := by
  intro p urls q urls2 h
  simp only [sampleExternals, Except.ok.injEq, Prod.mk.injEq] at h
  obtain ⟨hq, hu⟩ := h
  subst hq
  subst hu
  refine ⟨Nat.succ_ne_self p, by simp, ?_⟩
  rw [Function.update_noteq]
  exact (Nat.succ_ne_self p).symm

/-! ### Claims about the bootstrap -/

/-- C2: `newAuthenticateStateFromConfig` is all-or-nothing.  Its result is either a
state with a `nil` error or a `nil` state with an error; it returns a state exactly when
every step succeeds; and its result is that of the pipeline of the steps in the listed
order, so that the error returned is that of the first failing step (for the decode and
the convert of the signing key, the error that step builds by wrapping). -/
theorem newAuthenticateStateFromConfig_all_or_nothing {T : Sig} (X : Externals T)
    (cfg : config.Config T.OptionsRest) (w : World T) :
    ((∃ st, (newAuthenticateStateFromConfig X cfg w).1 = (some st, none)) ∨
      (∃ err, (newAuthenticateStateFromConfig X cfg w).1 = (none, some err))) ∧
    ((∃ st, (newAuthenticateStateFromConfig X cfg w).1.1 = some st) ↔
      AllStepsSucceed X cfg w) ∧
    (newAuthenticateStateFromConfig X cfg w).1 = resultPair (bootstrapPipeline X cfg w) := by
  have heq := newAuthenticateStateFromConfig_eq_resultPair X cfg w
  refine ⟨?_, ?_, heq⟩
  · rw [heq]
    cases bootstrapPipeline X cfg w with
    | error e => exact Or.inr ⟨e, rfl⟩
    | ok st => exact Or.inl ⟨st, rfl⟩
  · rw [← bootstrapPipeline_ok_iff, heq]
    cases bootstrapPipeline X cfg w with
    | error e => simp [resultPair]
    | ok st => simp [resultPair]

/-- C7: validation comes first, and a failure of any step that precedes connection
acquisition leaves the connection cache alone.  When `ValidateOptions` fails the
bootstrap returns its error and the world is unchanged; when the steps before the
acquisition fail with `err`, the bootstrap returns `err`, `Get` has not been called and
the cache is as it was; and when they all succeed, `Get` is called once, after them, on
the fingerprint they derived. -/
theorem newAuthenticateStateFromConfig_cache_untouched {T : Sig} (X : Externals T)
    (cfg : config.Config T.OptionsRest) (w : World T) :
    (∀ err, X.ValidateOptions cfg.Options = some err →
      newAuthenticateStateFromConfig X cfg w = ((none, some err), w)) ∧
    (∀ err, preConnectionSteps X cfg w.urls = .error err →
      (newAuthenticateStateFromConfig X cfg w).1 = (none, some err) ∧
      (newAuthenticateStateFromConfig X cfg w).2.getCalls = w.getCalls ∧
      (newAuthenticateStateFromConfig X cfg w).2.outboundGRPCConnection
        = w.outboundGRPCConnection) ∧
    (∀ pre, preConnectionSteps X cfg w.urls = .ok pre →
      (newAuthenticateStateFromConfig X cfg w).2.getCalls = w.getCalls ++ [pre.fingerprint] ∧
      (newAuthenticateStateFromConfig X cfg w).2.outboundGRPCConnection
        = (X.Get w.outboundGRPCConnection pre.fingerprint).2) := by
  refine ⟨?_, ?_, ?_⟩
  · intro err h
    simp [newAuthenticateStateFromConfig, h]
  · intro err h
    have hp := newAuthenticateStateFromConfig_pipeline X cfg w
    rw [h] at hp
    obtain ⟨w2, h2, hc, hg⟩ := hp
    rw [h2]
    exact ⟨rfl, hg, hc⟩
  · intro pre h
    have hp := newAuthenticateStateFromConfig_pipeline X cfg w
    rw [h] at hp
    simp only [] at hp
    rw [hp]
    exact ⟨rfl, rfl⟩

/-- C7 on two sample configurations: one with an empty cookie name, which fails
validation, and one with an empty cookie secret, which fails at `GetCookieSecret`. -/
theorem newAuthenticateStateFromConfig_cache_untouched_witness :
    newAuthenticateStateFromConfig sampleExternals
        { sampleConfig "" "" "id-1" [4, 5, 6] with
          Options := { (sampleConfig "" "" "id-1" [4, 5, 6]).Options with CookieName := "" } }
        sampleWorld
      = ((none, some (.new "authenticate: cookie name is required")), sampleWorld) ∧
    ((newAuthenticateStateFromConfig sampleExternals (sampleConfig "" "" "id-1" []) sampleWorld).1
        = (none, some (.new "empty cookie secret")) ∧
      (newAuthenticateStateFromConfig sampleExternals (sampleConfig "" "" "id-1" [])
        sampleWorld).2.getCalls = [] ∧
      (newAuthenticateStateFromConfig sampleExternals (sampleConfig "" "" "id-1" [])
        sampleWorld).2.outboundGRPCConnection = { current := none, created := 0 }) :=
  ⟨(newAuthenticateStateFromConfig_cache_untouched sampleExternals _ sampleWorld).1 _ rfl,
   (newAuthenticateStateFromConfig_cache_untouched sampleExternals
      (sampleConfig "" "" "id-1" []) sampleWorld).2.1 _ rfl⟩

/-- C6: the fingerprint handed to the connection cache.  A bootstrap either fails
before the acquisition, leaving the cache and the record of its `Get` calls as they
were, or calls `outboundGRPCConnection.Get` exactly once, on the tuple of
`cfg.OutboundPort`, `Options.InstallationID`, `Options.Services` and the shared key
returned by `GetSharedKey`: the cache becomes what `Get` leaves for that tuple and the
bootstrap returns the error of that `Get`, or a state whose client is built on the
connection it returned.  For two bootstraps that request the fingerprints `fp1` and
`fp2`: each is that tuple of its configuration and is what `Get` was applied to;
configurations with different installation identities give different fingerprints, and
configurations equal in the four components give equal fingerprints. -/
theorem newAuthenticateStateFromConfig_fingerprint {T : Sig} (X : Externals T)
    (cfg1 cfg2 : config.Config T.OptionsRest) (w1 w2 : World T)
    (fp1 fp2 : grpc.OutboundOptions)
    (h1 : (newAuthenticateStateFromConfig X cfg1 w1).2.getCalls = w1.getCalls ++ [fp1])
    (h2 : (newAuthenticateStateFromConfig X cfg2 w2).2.getCalls = w2.getCalls ++ [fp2]) :
    (∀ (cfg : config.Config T.OptionsRest) (w : World T),
      ((newAuthenticateStateFromConfig X cfg w).2.getCalls = w.getCalls ∧
        (newAuthenticateStateFromConfig X cfg w).2.outboundGRPCConnection
          = w.outboundGRPCConnection ∧
        ∃ err, (newAuthenticateStateFromConfig X cfg w).1 = (none, some err)) ∨
      ∃ sharedKey fp, X.GetSharedKey cfg.Options = .ok sharedKey ∧
        fp = { OutboundPort := cfg.OutboundPort
               InstallationID := cfg.Options.InstallationID
               ServiceName := cfg.Options.Services
               SignedJWTKey := sharedKey } ∧
        (newAuthenticateStateFromConfig X cfg w).2.getCalls = w.getCalls ++ [fp] ∧
        (newAuthenticateStateFromConfig X cfg w).2.outboundGRPCConnection
          = (X.Get w.outboundGRPCConnection fp).2 ∧
        (∀ err, (X.Get w.outboundGRPCConnection fp).1 = .error err →
          (newAuthenticateStateFromConfig X cfg w).1 = (none, some err)) ∧
        (∀ dataBrokerConn, (X.Get w.outboundGRPCConnection fp).1 = .ok dataBrokerConn →
          ∃ st, (newAuthenticateStateFromConfig X cfg w).1 = (some st, none) ∧
            st.dataBrokerClient = some (X.NewDataBrokerServiceClient dataBrokerConn))) ∧
    (∃ sharedKey, X.GetSharedKey cfg1.Options = .ok sharedKey ∧
      fp1 = { OutboundPort := cfg1.OutboundPort
              InstallationID := cfg1.Options.InstallationID
              ServiceName := cfg1.Options.Services
              SignedJWTKey := sharedKey }) ∧
    (newAuthenticateStateFromConfig X cfg1 w1).2.outboundGRPCConnection
      = (X.Get w1.outboundGRPCConnection fp1).2 ∧
    (newAuthenticateStateFromConfig X cfg2 w2).2.outboundGRPCConnection
      = (X.Get w2.outboundGRPCConnection fp2).2 ∧
    (cfg1.Options.InstallationID ≠ cfg2.Options.InstallationID → fp1 ≠ fp2) ∧
    (cfg1.OutboundPort = cfg2.OutboundPort →
      cfg1.Options.InstallationID = cfg2.Options.InstallationID →
      cfg1.Options.Services = cfg2.Options.Services →
      X.GetSharedKey cfg1.Options = X.GetSharedKey cfg2.Options → fp1 = fp2) := by
  have hcache : ∀ (cfg : config.Config T.OptionsRest) (w : World T) (fp : grpc.OutboundOptions),
      (newAuthenticateStateFromConfig X cfg w).2.getCalls = w.getCalls ++ [fp] →
      (newAuthenticateStateFromConfig X cfg w).2.outboundGRPCConnection
        = (X.Get w.outboundGRPCConnection fp).2 := by
    intro cfg w fp h
    rcases newAuthenticateStateFromConfig_acquire X cfg w with ⟨hg, _, _⟩ | ⟨k, _, hg, hc, _⟩
    · rw [hg] at h
      have hl := congrArg List.length h
      simp at hl
    · rw [hg] at h
      have hfp := List.append_cancel_left h
      simp only [List.cons.injEq, and_true] at hfp
      rw [← hfp]
      exact hc
  obtain ⟨k1, hk1, hfp1⟩ := newAuthenticateStateFromConfig_requested X cfg1 w1 fp1 h1
  obtain ⟨k2, hk2, hfp2⟩ := newAuthenticateStateFromConfig_requested X cfg2 w2 fp2 h2
  refine ⟨?_, ⟨k1, hk1, hfp1⟩, hcache cfg1 w1 fp1 h1, hcache cfg2 w2 fp2 h2, ?_, ?_⟩
  · intro cfg w
    rcases newAuthenticateStateFromConfig_acquire X cfg w with h | ⟨k, hk, hg, hc, he, ho⟩
    · exact Or.inl h
    · exact Or.inr ⟨k, fingerprintOf cfg k, hk, rfl, hg, hc, he, ho⟩
  · intro hne heq
    rw [hfp1, hfp2] at heq
    exact hne (congrArg grpc.OutboundOptions.InstallationID heq)
  · intro hp hi hs hk
    rw [hk1, hk2] at hk
    have hkk : k1 = k2 := Except.ok.inj hk
    rw [hfp1, hfp2]
    simp [fingerprintOf, hp, hi, hs, hkk]

/-- C6 on sample configurations: two that differ in the installation identity only
request different fingerprints, the same configuration bootstrapped twice requests the
same fingerprint, and the cache after the first bootstrap holds the connection that the
sample `Get` created for the fingerprint. -/
theorem newAuthenticateStateFromConfig_fingerprint_witness :
    (∃ sharedKey, sampleExternals.GetSharedKey (sampleConfig "" "" "id-1" [4, 5, 6]).Options
        = .ok sharedKey ∧
      ({ OutboundPort := "5443", InstallationID := "id-1", ServiceName := "authenticate",
         SignedJWTKey := [1, 2, 3] } : grpc.OutboundOptions)
        = { OutboundPort := (sampleConfig "" "" "id-1" [4, 5, 6]).OutboundPort
            InstallationID := (sampleConfig "" "" "id-1" [4, 5, 6]).Options.InstallationID
            ServiceName := (sampleConfig "" "" "id-1" [4, 5, 6]).Options.Services
            SignedJWTKey := sharedKey }) ∧
    (({ current := some ({ OutboundPort := "5443", InstallationID := "id-1",
                            ServiceName := "authenticate", SignedJWTKey := [1, 2, 3] }, 1)
        created := 1 } : SampleCache)
      = (sampleGet { current := none, created := 0 }
          { OutboundPort := "5443", InstallationID := "id-1", ServiceName := "authenticate",
            SignedJWTKey := [1, 2, 3] }).2) ∧
    (({ OutboundPort := "5443", InstallationID := "id-1", ServiceName := "authenticate",
        SignedJWTKey := [1, 2, 3] } : grpc.OutboundOptions)
      ≠ { OutboundPort := "5443", InstallationID := "id-2", ServiceName := "authenticate",
          SignedJWTKey := [1, 2, 3] }) ∧
    (({ OutboundPort := "5443", InstallationID := "id-1", ServiceName := "authenticate",
        SignedJWTKey := [1, 2, 3] } : grpc.OutboundOptions)
      = (newAuthenticateStateFromConfig sampleExternals (sampleConfig "" "" "id-1" [4, 5, 6])
          sampleWorld).2.getCalls.getLastD
            { OutboundPort := "", InstallationID := "", ServiceName := "", SignedJWTKey := [] }) :=
  have h := newAuthenticateStateFromConfig_fingerprint sampleExternals
    (sampleConfig "" "" "id-1" [4, 5, 6]) (sampleConfig "" "" "id-2" [4, 5, 6])
    sampleWorld sampleWorld
    { OutboundPort := "5443", InstallationID := "id-1", ServiceName := "authenticate",
      SignedJWTKey := [1, 2, 3] }
    { OutboundPort := "5443", InstallationID := "id-2", ServiceName := "authenticate",
      SignedJWTKey := [1, 2, 3] }
    rfl rfl
  have h2 := newAuthenticateStateFromConfig_fingerprint sampleExternals
    (sampleConfig "" "" "id-1" [4, 5, 6]) (sampleConfig "" "" "id-1" [4, 5, 6])
    sampleWorld
    (newAuthenticateStateFromConfig sampleExternals (sampleConfig "" "" "id-1" [4, 5, 6])
      sampleWorld).2
    { OutboundPort := "5443", InstallationID := "id-1", ServiceName := "authenticate",
      SignedJWTKey := [1, 2, 3] }
    ((newAuthenticateStateFromConfig sampleExternals (sampleConfig "" "" "id-1" [4, 5, 6])
      sampleWorld).2.getCalls.getLastD
        { OutboundPort := "", InstallationID := "", ServiceName := "", SignedJWTKey := [] })
    rfl rfl
  ⟨h.2.1, h.2.2.1, h.2.2.2.2.1 (by decide), h2.2.2.2.2.2 rfl rfl rfl rfl⟩

/-- C3, as stated, fails: on the sample configuration, whose shared key is `[1, 2, 3]`
and whose cookie secret is `[4, 5, 6]`, the bootstrap succeeds and its session store is
the store built over the encoder of the shared key; it is not a store built over an
encoder of the cookie secret. -/
theorem newAuthenticateStateFromConfig_store_not_cookie_encoder :
    ∃ st w2,
      newAuthenticateStateFromConfig sampleExternals (sampleConfig "" "" "id-1" [4, 5, 6])
        sampleWorld = ((some st, none), w2) ∧
      sampleExternals.GetSharedKey (sampleConfig "" "" "id-1" [4, 5, 6]).Options
        = .ok [1, 2, 3] ∧
      sampleExternals.GetCookieSecret (sampleConfig "" "" "id-1" [4, 5, 6]).Options
        = .ok [4, 5, 6] ∧
      (∃ sharedEncoder, sampleExternals.NewHS256Signer [1, 2, 3] = .ok sharedEncoder ∧
        sampleExternals.NewStore (fun _ => cookieOptionsOf (sampleConfig "" "" "id-1" [4, 5, 6]))
          sharedEncoder = .ok (cookieOptionsOf (sampleConfig "" "" "id-1" [4, 5, 6]), [1, 2, 3]) ∧
        st.sessionStore = some (cookieOptionsOf (sampleConfig "" "" "id-1" [4, 5, 6]), [1, 2, 3]) ∧
        st.sessionLoader = some (cookieOptionsOf (sampleConfig "" "" "id-1" [4, 5, 6]), [1, 2, 3])) ∧
      ¬ ∃ cookieEncoder cookieStore,
          sampleExternals.NewHS256Signer [4, 5, 6] = .ok cookieEncoder ∧
          sampleExternals.NewStore
            (fun _ => cookieOptionsOf (sampleConfig "" "" "id-1" [4, 5, 6])) cookieEncoder
            = .ok cookieStore ∧
          st.sessionStore = some cookieStore := by
  refine ⟨_, _, rfl, rfl, rfl, ⟨[1, 2, 3], rfl, rfl, rfl, rfl⟩, ?_⟩
  rintro ⟨cookieEncoder, cookieStore, he, hs, hst⟩
  have he2 : cookieEncoder = [4, 5, 6] := (Except.ok.inj he).symm
  subst he2
  have hs2 : cookieStore = (cookieOptionsOf (sampleConfig "" "" "id-1" [4, 5, 6]), [4, 5, 6]) :=
    (Except.ok.inj hs).symm
  subst hs2
  have h3 := congrArg Prod.snd (Option.some.inj hst)
  exact absurd h3 (by decide)

/-- C3, amended: on every successful bootstrap the session store and the session loader
of the returned state are the one cookie store built from the cookie options of the
configuration over the shared encoder, the encoder `NewHS256Signer` derives from the
shared key of `GetSharedKey`. -/
theorem newAuthenticateStateFromConfig_store_shared_encoder {T : Sig} (X : Externals T)
    (cfg : config.Config T.OptionsRest) (w : World T) (st : authenticateState T)
    (w2 : World T) (h : newAuthenticateStateFromConfig X cfg w = ((some st, none), w2)) :
    ∃ sharedKey sharedEncoder cookieStore,
      X.GetSharedKey cfg.Options = .ok sharedKey ∧
      X.NewHS256Signer sharedKey = .ok sharedEncoder ∧
      X.NewStore (fun _ =>
        { Name := cfg.Options.CookieName
          Domain := cfg.Options.CookieDomain
          Secure := cfg.Options.CookieSecure
          HTTPOnly := cfg.Options.CookieHTTPOnly
          Expire := cfg.Options.CookieExpire }) sharedEncoder = .ok cookieStore ∧
      st.sharedEncoder = some sharedEncoder ∧
      st.sessionStore = some cookieStore ∧
      st.sessionLoader = some cookieStore := by
  obtain ⟨pre, dataBrokerConn, hpre, _, hst, _⟩ := newAuthenticateStateFromConfig_ok X cfg w st w2 h
  obtain ⟨authenticateURL, urls1, redirectURL, urls2, sharedKey, sharedCipher, sharedEncoder,
    cookieSecret, cookieCipher, cookieStore, keys, h1, h2, h3, h4, h5, h6, h7, h8, h9, h10,
    hpre2⟩ := preConnectionSteps_ok X cfg w.urls pre hpre
  refine ⟨sharedKey, sharedEncoder, cookieStore, h4, h6, h9, ?_, ?_, ?_⟩ <;>
    rw [hst, hpre2]

/-- C3, amended, on the sample configuration. -/
theorem newAuthenticateStateFromConfig_store_shared_encoder_witness :
    ∃ sharedKey sharedEncoder cookieStore,
      sampleExternals.GetSharedKey (sampleConfig "" "" "id-1" [4, 5, 6]).Options
        = .ok sharedKey ∧
      sampleExternals.NewHS256Signer sharedKey = .ok sharedEncoder ∧
      sampleExternals.NewStore (fun _ =>
        { Name := "_pomerium", Domain := "example.com", Secure := true, HTTPOnly := true,
          Expire := 50400000000000 }) sharedEncoder = .ok cookieStore ∧
      some ([1, 2, 3] : Bytes) = some sharedEncoder ∧
      some (({ Name := "_pomerium", Domain := "example.com", Secure := true, HTTPOnly := true,
               Expire := 50400000000000 } : cookie.Options), ([1, 2, 3] : Bytes))
        = some cookieStore ∧
      some (({ Name := "_pomerium", Domain := "example.com", Secure := true, HTTPOnly := true,
               Expire := 50400000000000 } : cookie.Options), ([1, 2, 3] : Bytes))
        = some cookieStore :=
  newAuthenticateStateFromConfig_store_shared_encoder sampleExternals
    (sampleConfig "" "" "id-1" [4, 5, 6]) sampleWorld _ _ rfl

/-- C4: the code at sample configurations.  Without a signing key the bootstrap
succeeds and the key set of the returned state is non-nil and has no keys.  With the
signing-key file holding `!!!`, which is what `GetSigningKey` returns and which is not
valid base64, the bootstrap does not fail with the decode error: with the certificate
`b3B0aW9u` in the `SigningKey` option it succeeds, its one key converted from the
decoding of the option, and with an empty `SigningKey` option it fails at the convert. -/
theorem newAuthenticateStateFromConfig_malformed_obtained_key_not_rejected :
    (∃ st w2, newAuthenticateStateFromConfig sampleExternals
        (sampleConfig "" "" "id-1" [4, 5, 6]) sampleWorld = ((some st, none), w2) ∧
      sampleExternals.GetSigningKey (sampleConfig "" "" "id-1" [4, 5, 6]).Options = .ok "" ∧
      st.jwk = some { Keys := [] }) ∧
    sampleExternals.GetSigningKey (sampleConfig "b3B0aW9u" "!!!" "id-1" [4, 5, 6]).Options
      = .ok "!!!" ∧
    sampleExternals.DecodeString "!!!" = .error (.new "illegal base64 data") ∧
    (∃ decodedOption jwkOption st w2,
      sampleExternals.DecodeString "b3B0aW9u" = .ok decodedOption ∧
      sampleExternals.PublicJWKFromBytes decodedOption = .ok jwkOption ∧
      newAuthenticateStateFromConfig sampleExternals
        (sampleConfig "b3B0aW9u" "!!!" "id-1" [4, 5, 6]) sampleWorld
          = ((some st, none), w2) ∧
      st.jwk = some { Keys := [jwkOption] }) ∧
    sampleExternals.GetSigningKey (sampleConfig "" "!!!" "id-1" [4, 5, 6]).Options
      = .ok "!!!" ∧
    (newAuthenticateStateFromConfig sampleExternals
        (sampleConfig "" "!!!" "id-1" [4, 5, 6]) sampleWorld).1
      = (none, some (.errorf "authenticate: failed to convert jwks: %w"
          (.new "cryptutil: unsupported key type"))) := by
  refine ⟨⟨_, _, rfl, rfl, rfl⟩, rfl, rfl, ⟨_, _, _, _, rfl, rfl, rfl, rfl⟩, rfl, rfl⟩

/-- C9: the code at two sample configurations whose signing-key file holds the
certificate `Y2VydA==`, so that `GetSigningKey` returns it.  With the certificate
`b3B0aW9u` in the `SigningKey` option, the bootstrap succeeds and the one key of the key
set is converted from the decoding of the option, not of the certificate `GetSigningKey`
returned.  With an empty `SigningKey` option, the bootstrap fails at the convert,
although the certificate `GetSigningKey` returned decodes and converts. -/
theorem newAuthenticateStateFromConfig_decodes_option_not_obtained_key :
    sampleExternals.GetSigningKey (sampleConfig "b3B0aW9u" "Y2VydA==" "id-1" [4, 5, 6]).Options
      = .ok "Y2VydA==" ∧
    (∃ decodedCert jwk, sampleExternals.DecodeString "Y2VydA==" = .ok decodedCert ∧
      sampleExternals.PublicJWKFromBytes decodedCert = .ok jwk ∧
      ∃ decodedOption jwkOption, sampleExternals.DecodeString "b3B0aW9u" = .ok decodedOption ∧
        sampleExternals.PublicJWKFromBytes decodedOption = .ok jwkOption ∧
        jwkOption ≠ jwk ∧
        ∃ st w2, newAuthenticateStateFromConfig sampleExternals
            (sampleConfig "b3B0aW9u" "Y2VydA==" "id-1" [4, 5, 6]) sampleWorld
              = ((some st, none), w2) ∧
          st.jwk = some { Keys := [jwkOption] }) ∧
    sampleExternals.GetSigningKey (sampleConfig "" "Y2VydA==" "id-1" [4, 5, 6]).Options
      = .ok "Y2VydA==" ∧
    (newAuthenticateStateFromConfig sampleExternals
        (sampleConfig "" "Y2VydA==" "id-1" [4, 5, 6]) sampleWorld).1
      = (none, some (.errorf "authenticate: failed to convert jwks: %w"
          (.new "cryptutil: unsupported key type"))) := by
  refine ⟨rfl, ⟨_, _, rfl, rfl, _, _, rfl, rfl, by decide, _, _, rfl, rfl⟩, rfl, rfl⟩

/-- C10: on every successful bootstrap, `urlutil.DeepCopy` meeting its contract, the
redirect URL of the returned state is the authenticate URL of `GetAuthenticateURL` with
its Path replaced by `Options.AuthenticateCallbackPath` and every other field equal;
the authenticate URL itself is unchanged, and the WebAuthn relying party is bound to
the string of that unchanged URL. -/
theorem newAuthenticateStateFromConfig_redirect_url {T : Sig} (X : Externals T)
    (cfg : config.Config T.OptionsRest) (w : World T) (st : authenticateState T)
    (w2 : World T) (hcopy : DeepCopyContract X)
    (h : newAuthenticateStateFromConfig X cfg w = ((some st, none), w2)) :
    ∃ authenticateURL urls1 redirectURL,
      X.GetAuthenticateURL cfg.Options w.urls = .ok (authenticateURL, urls1) ∧
      st.redirectURL = some redirectURL ∧
      w2.urls redirectURL
        = { urls1 authenticateURL with Path := cfg.Options.AuthenticateCallbackPath } ∧
      w2.urls authenticateURL = urls1 authenticateURL ∧
      ∃ client, st.dataBrokerClient = some client ∧
        st.webauthnRelyingParty = some (X.NewRelyingParty
          (X.URLString (urls1 authenticateURL)) (X.NewCredentialStorage client)) := by
  obtain ⟨pre, dataBrokerConn, hpre, _, hst, hw2⟩ :=
    newAuthenticateStateFromConfig_ok X cfg w st w2 h
  obtain ⟨authenticateURL, urls1, redirectURL, urls2, sharedKey, sharedCipher, sharedEncoder,
    cookieSecret, cookieCipher, cookieStore, keys, h1, h2, h3, h4, h5, h6, h7, h8, h9, h10,
    hpre2⟩ := preConnectionSteps_ok X cfg w.urls pre hpre
  obtain ⟨hne, hq, hp⟩ := hcopy authenticateURL urls1 redirectURL urls2 h3
  have hauth : pre.urls pre.authenticateURL = urls1 authenticateURL := by
    rw [hpre2]
    simp only []
    rw [Function.update_noteq hne.symm, hp]
  refine ⟨authenticateURL, urls1, redirectURL, h2, ?_, ?_, ?_,
    X.NewDataBrokerServiceClient dataBrokerConn, ?_, ?_⟩
  · rw [hst, hpre2]
  · rw [hw2, hpre2]
    simp only [Function.update_same, hq]
  · rw [hw2]
    simp only []
    have hptr : pre.authenticateURL = authenticateURL := by rw [hpre2]
    rw [← hauth, hptr]
  · rw [hst]
  · rw [hst, hauth]

/-- C10 on the sample configuration: the redirect URL is
`https://authenticate.example.com/oauth2/callback` and the relying party is bound to
`https://authenticate.example.com/`. -/
theorem newAuthenticateStateFromConfig_redirect_url_witness :
    ∃ authenticateURL urls1 redirectURL,
      sampleExternals.GetAuthenticateURL (sampleConfig "" "" "id-1" [4, 5, 6]).Options
        sampleWorld.urls = .ok (authenticateURL, urls1) ∧
      some 1 = some redirectURL ∧
      (newAuthenticateStateFromConfig sampleExternals (sampleConfig "" "" "id-1" [4, 5, 6])
          sampleWorld).2.urls redirectURL
        = { urls1 authenticateURL with Path := "/oauth2/callback" } ∧
      (newAuthenticateStateFromConfig sampleExternals (sampleConfig "" "" "id-1" [4, 5, 6])
          sampleWorld).2.urls authenticateURL = urls1 authenticateURL ∧
      ∃ client, some 1 = some client ∧
        some ("https://authenticate.example.com/", 1) = some (sampleExternals.NewRelyingParty
          (sampleExternals.URLString (urls1 authenticateURL))
          (sampleExternals.NewCredentialStorage client)) :=
  newAuthenticateStateFromConfig_redirect_url sampleExternals
    (sampleConfig "" "" "id-1" [4, 5, 6]) sampleWorld _ _ sampleExternals_deepCopyContract rfl

end authenticate
